import Mathlib

/-!
Verification development for the playlist reconciliation engine of the
`gmusicapi` webclient vendored in this repository
(`Contents/Libraries/Shared/gmusicapi/webclient.py`).

The client methods are embedded shallowly as computations in a monad `M`
that threads the list of remote protocol calls issued so far (the "trace")
and can stop with a Python-style exception.  The remote server is
abstracted as an `Env` of responses, one field per protocol call; a
response is either a parsed value or a `CallFailure` message, exactly the
two outcomes `_make_call` (webclient.py line 63) can produce.

The module `gmusicapi.utils.tools` (whose `find_playlist_changes` and
`get_id_pairs` are called by `change_playlist`) and the decorators from
`gmusicapi.utils.utils` are not part of the repository sources; they are
modelled from the spec where needed and marked as such.  Note that the
module of webclient.py imports neither `copy` nor `tools`
(webclient.py lines 1-14), so the embedding of `change_playlist` is
parameterized by the set of module-level names that resolve.
-/

/-- A track reference: a song dictionary restricted to the two keys the
playlist engine reads, `id` (the song id, always present) and
`playlistEntryId` (this playlist's placement id, possibly absent —
`t.get("playlistEntryId")` yields `None`, modelled as `none`). -/
structure Track where
  id : String
  playlistEntryId : Option String
deriving DecidableEq

/-- A `(song_id, entry_id)` pair as produced by `tools.get_id_pairs`;
the entry id may be absent. -/
def IdPair := String × Option String
deriving instance DecidableEq for IdPair

/-- The remote protocol calls the webclient can issue (the
`webclient.<Call>` descriptors passed to `_make_call`).
`getPlaylistSongs "all"` is the playlist-index read used by
`get_all_playlist_ids` (webclient.py line 281). -/
inductive RemoteCall where
  | getPlaylistSongs (pid : String)
  | addPlaylist (name : String)
  | deletePlaylist (pid : String)
  | addToPlaylist (pid : String) (sids : List String)
  | deleteSongs (sids : List String) (pid : String) (eids : List String)
  | changePlaylistOrder (pid : String) (sids : List String) (eids : List (Option String))
  | changePlaylistName (pid : String) (name : String)
deriving DecidableEq

/-- The Python exceptions the embedded code can raise: `CallFailure`
(gmusicapi.exceptions, the only exception `change_playlist` catches),
`NameError` (unresolved module-level name), `KeyError` (missing dict key),
`ValueError` (tuple unpacking), `StopIteration` (exhausted generator at
webclient.py line 403). -/
inductive PyErr where
  | callFailure (msg : String)
  | nameError (name : String)
  | keyError (key : String)
  | valueError (msg : String)
  | stopIteration
deriving DecidableEq

/-- The computation monad of the embedding: a function from the trace of
remote calls issued so far to a result (value or uncaught exception)
together with the extended trace.  The trace also grows on failure, so
theorems can speak about which calls were issued before an error. -/
def M (α : Type) := List RemoteCall → Except PyErr α × List RemoteCall

instance : Monad M where
  pure a := fun t => (Except.ok a, t)
  bind x f := fun t =>
    match x t with
    | (Except.ok a, t1) => f a t1
    | (Except.error e, t1) => (Except.error e, t1)

/-- Raise a Python exception. -/
def throwM {α : Type} (e : PyErr) : M α := fun t => (Except.error e, t)

/-- Record that a remote call was issued. -/
def emit (c : RemoteCall) : M Unit := fun t => (Except.ok (), t ++ [c])

/-- `_make_call` (webclient.py line 63): issue the remote call and either
return the parsed response or raise `CallFailure`.  The call is recorded
in the trace in both cases — the request went out either way. -/
def mkCall {α : Type} (c : RemoteCall) (resp : Except String α) : M α := do
  emit c
  match resp with
  | Except.ok a => pure a
  | Except.error m => throwM (PyErr.callFailure m)

/-- `try ... except CallFailure: handler` — only `CallFailure` is caught;
every other exception propagates. -/
def catchCallFailure {α : Type} (x : M α) (h : String → M α) : M α := fun t =>
  match x t with
  | (Except.error (PyErr.callFailure m), t1) => h m t1
  | r => r

/-- Python `d["playlistEntryId"]` on a track: raises `KeyError` when the
key is absent. -/
def requireEid (t : Track) : M String :=
  match t.playlistEntryId with
  | some e => pure e
  | none => throwM (PyErr.keyError "playlistEntryId")

/-- Module-level name lookup: in Python, referencing a global name that
the module never imported raises `NameError` at the point of use. -/
def lookupName (imports : List String) (n : String) : M Unit :=
  if n ∈ imports then pure () else throwM (PyErr.nameError n)

/-- The names webclient.py actually imports at module level
(lines 8-14): `logging`, `gmusicapi`, `CallFailure`, `webclient`,
`utils`.  Neither `copy` (used at line 393) nor `tools` (used at
lines 410 and 454) is among them. -/
def moduleImports : List String := ["logging", "gmusicapi", "CallFailure", "webclient", "utils"]

/-- The namespace `change_playlist` was evidently written against: the
module imports plus the missing `copy` and `tools`. -/
def intendedImports : List String := moduleImports ++ ["copy", "tools"]

/-- The abstract remote server: one response per protocol call.  A
response of `Except.error m` makes the corresponding `_make_call` raise
`CallFailure m`. -/
structure Env where
  playlistSongs : String → Except String (List Track)
  allPlaylists : Except String (List (String × String))
  addPlaylist : String → Except String String
  deletePlaylist : String → Except String String
  addToPlaylist : String → List String → Except String (List (String × String))
  deleteEntries : List String → String → List String → Except String (List String)
  changeOrder : String → List String → List (Option String) → Except String Unit
  changeName : String → String → Except String Unit

/-- `get_playlist_songs` (webclient.py lines 222-232): one
`GetPlaylistSongs` call, returning `res['playlist']`.  Per its docstring
(line 228) the server answers `[]` when the playlist id does not exist. -/
def get_playlist_songs (env : Env) (pid : String) : M (List Track) :=
  mkCall (RemoteCall.getPlaylistSongs pid) (env.playlistSongs pid)

/-- `create_playlist` (webclient.py lines 162-168): `AddPlaylist`,
returning the new id. -/
def create_playlist (env : Env) (name : String) : M String :=
  mkCall (RemoteCall.addPlaylist name) (env.addPlaylist name)

/-- `delete_playlist` (webclient.py lines 170-178): `DeletePlaylist`,
returning `res['deleteId']`. -/
def delete_playlist (env : Env) (pid : String) : M String :=
  mkCall (RemoteCall.deletePlaylist pid) (env.deletePlaylist pid)

/-- `change_playlist_name` (webclient.py lines 121-130):
`ChangePlaylistName`; the call returns nothing and the method returns the
argument id. -/
def change_playlist_name (env : Env) (pid newName : String) : M String := do
  let _ ← mkCall (RemoteCall.changePlaylistName pid newName) (env.changeName pid newName)
  pure pid

/-- Modelled from the spec: the `utils.empty_arg_shortcircuit` decorator
(module `gmusicapi.utils.utils`, not in the repository sources) makes the
decorated method return an empty result at once, without issuing any
remote call, when the designated list argument is empty.  Here it is the
`isEmpty` guard on `add_songs_to_playlist` (webclient.py lines 487-500),
which otherwise issues `AddToPlaylist` and returns the
`(songId, playlistEntryId)` pairs of the new entries. -/
def add_songs_to_playlist (env : Env) (pid : String) (sids : List String) :
    M (List (String × String)) :=
  if sids.isEmpty then pure []
  else mkCall (RemoteCall.addToPlaylist pid sids) (env.addToPlaylist pid sids)

/-- `copy_playlist` (webclient.py lines 347-361): fetch the source
playlist's tracks, create the copy under `copy_name`, and append all
fetched tracks to it, in their original order. -/
def copy_playlist (env : Env) (pid copyName : String) : M String := do
  let origTracks ← get_playlist_songs env pid
  let newId ← create_playlist env copyName
  let _ ← add_songs_to_playlist env newId (origTracks.map Track.id)
  pure newId

/-- `_playlist_list_to_dict` (webclient.py lines 286-294): group the
`(title, playlistId)` list into a mapping from name to the list of ids
carrying that name.  The Python 2 dict's arbitrary iteration order is
modelled deterministically as first-insertion order. -/
def playlistListToDict (pl : List (String × String)) : List (String × List String) :=
  pl.foldl (fun ret np =>
    if ret.any (fun e => e.1 = np.1) then
      ret.map (fun e => if e.1 = np.1 then (e.1, e.2 ++ [np.2]) else e)
    else ret ++ [(np.1, [np.2])]) []

/-- The generator expression at webclient.py lines 401-403: the first
name mapped to a list of ids containing `playlist_id`; `.next()` on an
exhausted generator raises `StopIteration`. -/
def firstNameFor (namesToIds : List (String × List String)) (pid : String) : M String :=
  match namesToIds.find? (fun e => pid ∈ e.2) with
  | some e => pure e.1
  | none => throwM PyErr.stopIteration

/-- `get_all_playlist_ids()['user']` (webclient.py lines 234-284 as used
at line 400): a `GetPlaylistSongs 'all'` read, grouped by name. -/
def get_all_playlist_ids_user (env : Env) : M (List (String × List String)) := do
  let pl ← mkCall (RemoteCall.getPlaylistSongs "all") env.allPlaylists
  pure (playlistListToDict pl)

/-- The filtering comprehension of `_remove_entries_from_playlist`
(webclient.py lines 545-547): for each fetched track, read
`t["playlistEntryId"]` (a `KeyError` when absent) and keep the
`(id, entryId)` pair when the entry id is in the removal set. -/
def pairsForRemoval (tracks : List Track) (removeEids : List (Option String)) :
    M (List (String × String)) :=
  match tracks with
  | [] => pure []
  | t :: rest => do
    let e ← requireEid t
    let tail ← pairsForRemoval rest removeEids
    if (some e) ∈ removeEids then pure ((t.id, e) :: tail) else pure tail

/-- `_remove_entries_from_playlist` (webclient.py lines 532-559; the
source name's leading underscore is dropped here).  The
`empty_arg_shortcircuit` decorator (modelled from the spec, see
`add_songs_to_playlist`) returns `[]` for an empty argument list.
Otherwise: fetch the playlist's tracks, pair the song ids with the entry
ids to remove, unzip with `sids, eids = zip(*e_s_id_pairs)` — which
raises `ValueError` when the pair list is empty, since `zip()` of nothing
cannot be unpacked into two names — then issue the `DeleteSongs` call. -/
def remove_entries_from_playlist (env : Env) (pid : String)
    (entryIdsToRemove : List (Option String)) : M (List String) :=
  if entryIdsToRemove.isEmpty then pure []
  else do
    let playlistTracks ← get_playlist_songs env pid
    let pairs ← pairsForRemoval playlistTracks entryIdsToRemove
    match pairs with
    | [] => throwM (PyErr.valueError "need more than 0 values to unpack")
    | _ :: _ => do
      let sids := pairs.map Prod.fst
      let eids := pairs.map Prod.snd
      mkCall (RemoteCall.deleteSongs sids pid eids) (env.deleteEntries sids pid eids)

/-- Modelled from the spec: `tools.get_id_pairs` (module
`gmusicapi.utils.tools`, not in the repository sources).  Spec section 6:
a track list becomes its list of `(song_id, entry_id)` Track-Reference
pairs, the entry id absent when the track does not carry one. -/
def get_id_pairs (l : List Track) : List IdPair :=
  l.map (fun t => (t.id, t.playlistEntryId))

/-- Number of occurrences of song id `s` in a track list. -/
def sidCount : List Track → String → Nat
  | [], _ => 0
  | t :: rest, s => (if t.id = s then 1 else 0) + sidCount rest s

/-- Number of pairs carrying song id `s`. -/
def pairSidCount : List IdPair → String → Nat
  | [], _ => 0
  | p :: rest, s => (if p.1 = s then 1 else 0) + pairSidCount rest s

/-- Decrement a per-song-id budget at one song id. -/
def decBudget (b : String → Nat) (s : String) : String → Nat :=
  fun x => if x = s then b x - 1 else b x

/-- Walk the server list in order; each element is kept while its song
id's budget lasts and deleted afterwards.  Returns `(kept, deleted)`. -/
def splitKeep (b : String → Nat) : List Track → List IdPair × List IdPair
  | [] => ([], [])
  | t :: rest =>
    if 0 < b t.id then
      let kd := splitKeep (decBudget b t.id) rest
      ((t.id, t.playlistEntryId) :: kd.1, kd.2)
    else
      let kd := splitKeep b rest
      (kd.1, (t.id, t.playlistEntryId) :: kd.2)

/-- Walk the desired list in order; occurrences of a song id beyond its
budget become additions, carrying no entry id (the placeholder). -/
def excessAdd (b : String → Nat) : List Track → List IdPair
  | [] => []
  | t :: rest =>
    if 0 < b t.id then excessAdd (decBudget b t.id) rest
    else (t.id, none) :: excessAdd b rest

/-- Modelled from the spec: `tools.find_playlist_changes` (module
`gmusicapi.utils.tools`, not in the repository sources; webclient.py
lines 408-410 document its result as Counter, Counter, and set of id
pairs to delete, add, and keep).  Spec section 4.1: song ids are matched
by count; per song id, `min(server count, desired count)` server pairs
are kept, the excess server pairs are deleted, and desired occurrences in
excess of the server count are added with no entry id.  The
under-specified tie-break for which duplicate entry ids to keep (spec
section 9) is fixed deterministically as first-seen-in-server-list. -/
def find_playlist_changes (serverTracks desiredTracks : List Track) :
    List IdPair × List IdPair × List IdPair :=
  let kd := splitKeep (fun s => min (sidCount serverTracks s) (sidCount desiredTracks s))
    serverTracks
  let toAdd := excessAdd (fun s => sidCount serverTracks s) desiredTracks
  (kd.2, toAdd, kd.1)

/-- The `new_sid_to_eids` mapping built at webclient.py lines 424-428:
song id to the non-empty stack of server-assigned entry ids.  Python
appends at the end of the per-sid list and `.pop()` removes from the end;
that last-in-first-out discipline is modelled by pushing on the front of
`(top, rest)`, which keeps every stored stack non-empty by
construction. -/
def buildSidToEids (newPairs : List (String × String)) :
    List (String × String × List String) :=
  newPairs.foldl (fun m p =>
    if m.any (fun e => e.1 = p.1) then
      m.map (fun e => if e.1 = p.1 then (e.1, p.2, e.2.1 :: e.2.2) else e)
    else m ++ [(p.1, p.2, [])]) []

/-- `new_sid_to_eids[sid].pop()` plus the `del` of an emptied key
(webclient.py lines 441-443). -/
def popEid (m : List (String × String × List String)) (sid : String) :
    Option (String × List (String × String × List String)) :=
  match m.find? (fun e => e.1 = sid) with
  | none => none
  | some e =>
    match e.2.2 with
    | [] => some (e.2.1, m.filter (fun x => ¬ x.1 = sid))
    | r :: rs => some (e.2.1, m.map (fun x => if x.1 = sid then (x.1, r, rs) else x))

/-- The fold-back loop of webclient.py lines 430-443: walk the (copied)
desired list; for each track whose song id has freshly assigned entry
ids, either consume one matching pair from `to_keep` (`to_keep.remove`,
keeping the track's existing entry id) or assign it the popped fresh
entry id. -/
def foldBack : List Track → List IdPair → List (String × String × List String) → List Track
  | [], _, _ => []
  | t :: rest, toKeep, m =>
    match popEid m t.id with
    | none => t :: foldBack rest toKeep m
    | some em =>
      if ((t.id, t.playlistEntryId) : IdPair) ∈ toKeep then
        t :: foldBack rest (toKeep.erase (t.id, t.playlistEntryId)) m
      else
        { t with playlistEntryId := some em.1 } :: foldBack rest toKeep em.2

/-- The delete step of `change_playlist` (webclient.py lines 412-415):
collect the entry ids of the pairs to delete and, when there are any,
remove those entries from the playlist. -/
def deleteStep (env : Env) (pid : String) (toDel : List IdPair) : M Unit :=
  let toDelEids := toDel.map Prod.snd
  if toDelEids.isEmpty then pure ()
  else do
    let _ ← remove_entries_from_playlist env pid toDelEids
    pure ()

/-- The add step of `change_playlist` (webclient.py lines 417-443):
collect the song ids of the pairs to add; when there are any, issue the
add call and fold the server-assigned entry ids back into the desired
list.  Returns the desired list as it stands after the step. -/
def addStep (env : Env) (pid : String) (toAdd toKeep : List IdPair)
    (desired : List Track) : M (List Track) :=
  let toAddSids := toAdd.map Prod.fst
  if toAddSids.isEmpty then pure desired
  else do
    let newPairs ← add_songs_to_playlist env pid toAddSids
    pure (foldBack desired toKeep (buildSidToEids newPairs))

/-- The order step of `change_playlist` (webclient.py lines 445-457):
when the desired list is non-empty, unzip
`tools.get_id_pairs(desired_playlist[::-1])` — the desired list
reversed — and issue the single `ChangePlaylistOrder` call with those
song ids and entry ids.  An empty desired list skips the call (`zip` of
nothing cannot be unpacked, webclient.py line 453). -/
def orderStep (imports : List String) (env : Env) (pid : String)
    (desired : List Track) : M Unit :=
  if desired.isEmpty then pure ()
  else do
    lookupName imports "tools"
    match get_id_pairs desired.reverse with
    | [] => throwM (PyErr.valueError "need more than 0 values to unpack")
    | p :: ps => do
      let sids := (p :: ps).map Prod.fst
      let eids := (p :: ps).map Prod.snd
      if sids.isEmpty then pure ()
      else
        mkCall (RemoteCall.changePlaylistOrder pid sids eids) (env.changeOrder pid sids eids)

/-- The mutation sequence inside the `try` of `change_playlist`
(webclient.py lines 407-457): resolve `tools`, diff, delete, add with
fold-back, reorder. -/
def attemptMutation (imports : List String) (env : Env) (pid : String)
    (serverTracks desired : List Track) : M Unit := do
  lookupName imports "tools"
  match find_playlist_changes serverTracks desired with
  | (toDel, toAdd, toKeep) => do
    deleteStep env pid toDel
    let desired1 ← addStep env pid toAdd toKeep desired
    orderStep imports env pid desired1

/-- The whole `try` body of `change_playlist` (webclient.py
lines 407-461): the mutation sequence followed, in safe mode, by the
deletion of the backup playlist — that cleanup sits inside the same
`try`. -/
def change_playlistAttempt (imports : List String) (env : Env) (pid : String)
    (serverTracks desired : List Track) (safe : Bool) (backupId : String) : M Unit := do
  attemptMutation imports env pid serverTracks desired
  if safe then do
    let _ ← delete_playlist env backupId
    pure ()
  else pure ()

/-- Modelled from the spec: `copy.deepcopy` of a track dictionary
(module `copy` of the standard library).  The embedding's tracks are
immutable values, so the copy that webclient.py line 393 takes to avoid
aliasing is the identity here. -/
def deepcopy (t : Track) : Track := t

/-- The deep-copying comprehension at webclient.py line 393,
`[copy.deepcopy(t) for t in desired_playlist]`: the loop body — and with
it the lookup of the global name `copy` — only runs when the list is
non-empty. -/
def deepcopyStep (imports : List String) (desiredPlaylist : List Track) : M (List Track) :=
  match desiredPlaylist with
  | [] => pure []
  | _ :: _ => do
    lookupName imports "copy"
    pure (desiredPlaylist.map deepcopy)

/-- The prelude of `change_playlist` before the `try` (webclient.py
lines 388-405): deep-copy the caller's list, fetch the server
tracks, and in safe mode resolve the playlist's name and copy it to
`name + "_gmusicapi_backup"`.  Returns (copied desired list, server
tracks, playlist name, backup id); name and backup id are returned as
`""` when `safe` is false, in which case the source leaves those
variables unbound and never reads them. -/
def change_playlistPrelude (imports : List String) (env : Env) (pid : String)
    (desiredPlaylist : List Track) (safe : Bool) :
    M (List Track × List Track × String × String) := do
  let dcopy ← deepcopyStep imports desiredPlaylist
  let serverTracks ← get_playlist_songs env pid
  if safe then do
    let namesToIds ← get_all_playlist_ids_user env
    let playlistName ← firstNameFor namesToIds pid
    let backupId ← copy_playlist env pid (playlistName ++ "_gmusicapi_backup")
    pure (dcopy, serverTracks, playlistName, backupId)
  else
    pure (dcopy, serverTracks, "", "")

/-- The recovery of the safe-mode failure handler (webclient.py
lines 473-483): delete the (inconsistent) original playlist, rename the
backup to the original name, and make the backup id the playlist's new
identity.  The inner `except CallFailure: raise` is transparent — the
bare `raise` inside the inner handler re-raises the recovery failure it
just caught — so either sub-step's failure propagates unchanged. -/
def recoverStep (env : Env) (pid bid name : String) : M String := do
  let _ ← delete_playlist env pid
  let _ ← change_playlist_name env bid name
  pure bid

/-- The `except CallFailure` handler of `change_playlist` (webclient.py
lines 463-483): re-raise when `safe` is false, attempt recovery when
`safe` is true. -/
def change_playlistHandler (env : Env) (pid : String) (safe : Bool) (name bid : String) :
    String → M String :=
  fun origMsg =>
    if safe then recoverStep env pid bid name
    else throwM (PyErr.callFailure origMsg)

/-- `change_playlist` (webclient.py lines 363-485): prelude, then the
`try` body, with `except CallFailure` handling.  When `safe` is false the
failure is re-raised untouched; when `safe` is true recovery is
attempted and, on its success, the backup id is returned in place of the
original. -/
def change_playlist (imports : List String) (env : Env) (pid : String)
    (desiredPlaylist : List Track) (safe : Bool) : M String := do
  let pre ← change_playlistPrelude imports env pid desiredPlaylist safe
  match pre with
  | (dcopy, serverTracks, playlistName, backupId) =>
    catchCallFailure
      (do
        change_playlistAttempt imports env pid serverTracks dcopy safe backupId
        pure pid)
      (change_playlistHandler env pid safe playlistName backupId)

/-- Run a computation from the empty trace. -/
def run {α : Type} (m : M α) : Except PyErr α × List RemoteCall := m []

/-- Is this call the remote order-setting call? -/
def isOrderCall : RemoteCall → Bool
  | RemoteCall.changePlaylistOrder _ _ _ => true
  | _ => false

/-- Is this one of the two recovery calls of the `safe` failure handler
(webclient.py lines 474-475): a playlist deletion or a playlist
rename? -/
def isRecoveryCall : RemoteCall → Bool
  | RemoteCall.deletePlaylist _ => true
  | RemoteCall.changePlaylistName _ _ => true
  | _ => false

/-- Is this a destructive call: an entry deletion, a reorder, a playlist
deletion or a playlist rename?  (Reads, playlist creation and playlist
addition are not destructive.) -/
def isDestructiveCall : RemoteCall → Bool
  | RemoteCall.deleteSongs _ _ _ => true
  | RemoteCall.changePlaylistOrder _ _ _ => true
  | RemoteCall.deletePlaylist _ => true
  | RemoteCall.changePlaylistName _ _ => true
  | _ => false

/-- Did the computation end without an uncaught exception? -/
def isOkE {α : Type} : Except PyErr α → Bool
  | Except.ok _ => true
  | Except.error _ => false

/-- `m` only appends calls satisfying `p` to the trace. -/
def EmitsOnly {α : Type} (m : M α) (p : RemoteCall → Bool) : Prop :=
  ∀ t, ∃ s, (m t).2 = t ++ s ∧ s.all p = true

/-- A server oracle for `get_playlist_songs` behaving as its docstring
states (webclient.py line 228): the response for a playlist id is the
stored track list, and `[]` when the playlist id does not exist — an
unknown id is not a call failure.  Only the `GetPlaylistSongs` response
is populated. -/
def serverEnvOf (db : List (String × List Track)) : Env where
  playlistSongs := fun pid => Except.ok ((db.lookup pid).getD [])
  allPlaylists := Except.error "unused"
  addPlaylist := fun _ => Except.error "unused"
  deletePlaylist := fun _ => Except.error "unused"
  addToPlaylist := fun _ _ => Except.error "unused"
  deleteEntries := fun _ _ _ => Except.error "unused"
  changeOrder := fun _ _ _ => Except.error "unused"
  changeName := fun _ _ => Except.error "unused"

/-- A concrete server for witnesses: playlist `"p1"`, named `"My"`,
holding the single track `s1` at entry `e1`; every call succeeds.  New
playlists get id `"b1"`; added songs get entry ids `"ne_" ++ sid` on
`"p1"` and `"be_" ++ sid` elsewhere. -/
def envOk : Env where
  playlistSongs := fun pid => if pid = "p1" then Except.ok [⟨"s1", some "e1"⟩] else Except.ok []
  allPlaylists := Except.ok [("My", "p1")]
  addPlaylist := fun _ => Except.ok "b1"
  deletePlaylist := fun p => Except.ok p
  addToPlaylist := fun p sids =>
    if p = "p1" then Except.ok (sids.map (fun s => (s, "ne_" ++ s)))
    else Except.ok (sids.map (fun s => (s, "be_" ++ s)))
  deleteEntries := fun sids _ eids => Except.ok ((sids.zip eids).map (fun q => q.1 ++ "_" ++ q.2))
  changeOrder := fun _ _ _ => Except.ok ()
  changeName := fun _ _ => Except.ok ()

/-- `envOk` except that creating any playlist fails (the backup snapshot
cannot be created). -/
def envSnapFail : Env :=
  { envOk with addPlaylist := fun _ => Except.error "create failed" }

/-- `envOk` except that adding songs to `"p1"` fails (a failure in the
add step of the mutation sequence). -/
def envAddFail : Env :=
  { envOk with addToPlaylist := fun p sids =>
      if p = "p1" then Except.error "add failed"
      else Except.ok (sids.map (fun s => (s, "be_" ++ s))) }

/-- `envAddFail` except that deleting `"p1"` also fails (the recovery's
first sub-step fails). -/
def envAddFailRecoverFail : Env :=
  { envAddFail with deletePlaylist := fun p =>
      if p = "p1" then Except.error "recovery delete failed" else Except.ok p }

/-- `envOk` except that deleting the backup playlist `"b1"` fails (the
final cleanup of a fully successful mutation fails). -/
def envCleanupFail : Env :=
  { envOk with deletePlaylist := fun p =>
      if p = "b1" then Except.error "cleanup failed" else Except.ok p }

theorem M.bind_apply {α β : Type} (x : M α) (f : α → M β) (t : List RemoteCall) :
    (x >>= f) t =
      match x t with
      | (Except.ok a, t1) => f a t1
      | (Except.error e, t1) => (Except.error e, t1) := rfl

theorem M.pure_apply {α : Type} (a : α) (t : List RemoteCall) :
    (pure a : M α) t = (Except.ok a, t) := rfl

theorem throwM_apply {α : Type} (e : PyErr) (t : List RemoteCall) :
    (throwM e : M α) t = (Except.error e, t) := rfl

theorem emit_apply (c : RemoteCall) (t : List RemoteCall) :
    emit c t = (Except.ok (), t ++ [c]) := rfl

theorem mkCall_ok {α : Type} {resp : Except String α} {a : α} (c : RemoteCall)
    (h : resp = Except.ok a) (t : List RemoteCall) :
    mkCall c resp t = (Except.ok a, t ++ [c]) := by
  subst h; rfl

theorem mkCall_err {α : Type} {resp : Except String α} {m : String} (c : RemoteCall)
    (h : resp = Except.error m) (t : List RemoteCall) :
    mkCall c resp t = (Except.error (PyErr.callFailure m), t ++ [c]) := by
  subst h; rfl

theorem catch_ok {α : Type} {x : M α} {h : String → M α} {t t1 : List RemoteCall} {a : α}
    (hx : x t = (Except.ok a, t1)) : catchCallFailure x h t = (Except.ok a, t1) := by
  unfold catchCallFailure; rw [hx]

theorem catch_callFailure {α : Type} {x : M α} {h : String → M α} {t t1 : List RemoteCall}
    {m : String} (hx : x t = (Except.error (PyErr.callFailure m), t1)) :
    catchCallFailure x h t = h m t1 := by
  unfold catchCallFailure; rw [hx]

theorem catch_nameError {α : Type} {x : M α} {h : String → M α} {t t1 : List RemoteCall}
    {n : String} (hx : x t = (Except.error (PyErr.nameError n), t1)) :
    catchCallFailure x h t = (Except.error (PyErr.nameError n), t1) := by
  unfold catchCallFailure; rw [hx]

theorem emitsOnly_pure {α : Type} (a : α) (p : RemoteCall → Bool) :
    EmitsOnly (pure a : M α) p :=
  fun t => ⟨[], by simp [M.pure_apply], rfl⟩

theorem emitsOnly_throwM {α : Type} (e : PyErr) (p : RemoteCall → Bool) :
    EmitsOnly (throwM e : M α) p :=
  fun t => ⟨[], by simp [throwM_apply], rfl⟩

theorem emitsOnly_mkCall {α : Type} {c : RemoteCall} (resp : Except String α)
    {p : RemoteCall → Bool} (hc : p c = true) : EmitsOnly (mkCall c resp) p := by
  intro t
  cases resp with
  | ok a => exact ⟨[c], by rw [mkCall_ok c rfl], by simp [hc]⟩
  | error m => exact ⟨[c], by rw [mkCall_err c rfl], by simp [hc]⟩

theorem emitsOnly_bind {α β : Type} {x : M α} {f : α → M β} {p : RemoteCall → Bool}
    (hx : EmitsOnly x p) (hf : ∀ a, EmitsOnly (f a) p) : EmitsOnly (x >>= f) p := by
  intro t
  obtain ⟨s, hs, hall⟩ := hx t
  rw [M.bind_apply]
  cases hxt : x t with
  | mk r t1 =>
    rw [hxt] at hs
    cases r with
    | ok a =>
      obtain ⟨s2, hs2, hall2⟩ := hf a t1
      have ht1 : t1 = t ++ s := hs
      refine ⟨s ++ s2, ?_, ?_⟩
      · rw [hs2, ht1, List.append_assoc]
      · simp [List.all_append, hall, hall2]
    | error e => exact ⟨s, hs, hall⟩

theorem emitsOnly_ite {α : Type} {c : Prop} [Decidable c] {x y : M α} {p : RemoteCall → Bool}
    (hx : EmitsOnly x p) (hy : EmitsOnly y p) : EmitsOnly (if c then x else y) p := by
  by_cases h : c
  · simpa [h] using hx
  · simpa [h] using hy

theorem emitsOnly_catch {α : Type} {x : M α} {h : String → M α} {p : RemoteCall → Bool}
    (hx : EmitsOnly x p) (hh : ∀ m, EmitsOnly (h m) p) : EmitsOnly (catchCallFailure x h) p := by
  intro t
  obtain ⟨s, hs, hall⟩ := hx t
  unfold catchCallFailure
  cases hxt : x t with
  | mk r t1 =>
    rw [hxt] at hs
    match r with
    | Except.error (PyErr.callFailure m) =>
      obtain ⟨s2, hs2, hall2⟩ := hh m t1
      have ht1 : t1 = t ++ s := hs
      exact ⟨s ++ s2, by rw [hs2, ht1, List.append_assoc], by
        simp [List.all_append, hall, hall2]⟩
    | Except.ok a => exact ⟨s, hs, hall⟩
    | Except.error (PyErr.nameError n) => exact ⟨s, hs, hall⟩
    | Except.error (PyErr.keyError k) => exact ⟨s, hs, hall⟩
    | Except.error (PyErr.valueError v) => exact ⟨s, hs, hall⟩
    | Except.error PyErr.stopIteration => exact ⟨s, hs, hall⟩

theorem emitsOnly_lookupName {imports : List String} {n : String} {p : RemoteCall → Bool} :
    EmitsOnly (lookupName imports n) p := by
  unfold lookupName
  exact emitsOnly_ite (emitsOnly_pure _ _) (emitsOnly_throwM _ _)

theorem emitsOnly_requireEid {t : Track} {p : RemoteCall → Bool} :
    EmitsOnly (requireEid t) p := by
  unfold requireEid
  cases t.playlistEntryId
  · exact emitsOnly_throwM _ _
  · exact emitsOnly_pure _ _

theorem emitsOnly_get_playlist_songs {env : Env} {pid : String} {p : RemoteCall → Bool}
    (h : p (RemoteCall.getPlaylistSongs pid) = true) :
    EmitsOnly (get_playlist_songs env pid) p :=
  emitsOnly_mkCall _ h

theorem emitsOnly_create_playlist {env : Env} {name : String} {p : RemoteCall → Bool}
    (h : p (RemoteCall.addPlaylist name) = true) :
    EmitsOnly (create_playlist env name) p :=
  emitsOnly_mkCall _ h

theorem emitsOnly_delete_playlist {env : Env} {pid : String} {p : RemoteCall → Bool}
    (h : p (RemoteCall.deletePlaylist pid) = true) :
    EmitsOnly (delete_playlist env pid) p :=
  emitsOnly_mkCall _ h

theorem emitsOnly_change_playlist_name {env : Env} {pid n : String} {p : RemoteCall → Bool}
    (h : p (RemoteCall.changePlaylistName pid n) = true) :
    EmitsOnly (change_playlist_name env pid n) p :=
  emitsOnly_bind (emitsOnly_mkCall _ h) (fun _ => emitsOnly_pure _ _)

theorem emitsOnly_add_songs_to_playlist {env : Env} {pid : String} {sids : List String}
    {p : RemoteCall → Bool} (h : p (RemoteCall.addToPlaylist pid sids) = true) :
    EmitsOnly (add_songs_to_playlist env pid sids) p := by
  unfold add_songs_to_playlist
  exact emitsOnly_ite (emitsOnly_pure _ _) (emitsOnly_mkCall _ h)

theorem emitsOnly_copy_playlist {env : Env} {pid copyName : String} {p : RemoteCall → Bool}
    (h1 : p (RemoteCall.getPlaylistSongs pid) = true)
    (h2 : p (RemoteCall.addPlaylist copyName) = true)
    (h3 : ∀ b sids, p (RemoteCall.addToPlaylist b sids) = true) :
    EmitsOnly (copy_playlist env pid copyName) p := by
  unfold copy_playlist
  exact emitsOnly_bind (emitsOnly_get_playlist_songs h1) (fun tr =>
    emitsOnly_bind (emitsOnly_create_playlist h2) (fun b =>
      emitsOnly_bind (emitsOnly_add_songs_to_playlist (h3 b _)) (fun _ =>
        emitsOnly_pure _ _)))

theorem emitsOnly_get_all_playlist_ids_user {env : Env} {p : RemoteCall → Bool}
    (h : p (RemoteCall.getPlaylistSongs "all") = true) :
    EmitsOnly (get_all_playlist_ids_user env) p := by
  unfold get_all_playlist_ids_user
  exact emitsOnly_bind (emitsOnly_mkCall _ h) (fun _ => emitsOnly_pure _ _)

theorem emitsOnly_firstNameFor {l : List (String × List String)} {pid : String}
    {p : RemoteCall → Bool} : EmitsOnly (firstNameFor l pid) p := by
  unfold firstNameFor
  cases l.find? (fun e => pid ∈ e.2)
  · exact emitsOnly_throwM _ _
  · exact emitsOnly_pure _ _

theorem emitsOnly_pairsForRemoval {tracks : List Track} {rem : List (Option String)}
    {p : RemoteCall → Bool} : EmitsOnly (pairsForRemoval tracks rem) p := by
  induction tracks with
  | nil => exact emitsOnly_pure _ _
  | cons t rest ih =>
    unfold pairsForRemoval
    exact emitsOnly_bind emitsOnly_requireEid (fun e =>
      emitsOnly_bind ih (fun tail =>
        emitsOnly_ite (emitsOnly_pure _ _) (emitsOnly_pure _ _)))

theorem emitsOnly_remove_entries {env : Env} {pid : String} {rem : List (Option String)}
    {p : RemoteCall → Bool}
    (h1 : p (RemoteCall.getPlaylistSongs pid) = true)
    (h2 : ∀ a b c, p (RemoteCall.deleteSongs a b c) = true) :
    EmitsOnly (remove_entries_from_playlist env pid rem) p := by
  unfold remove_entries_from_playlist
  refine emitsOnly_ite (emitsOnly_pure _ _) ?_
  refine emitsOnly_bind (emitsOnly_get_playlist_songs h1) (fun tracks => ?_)
  refine emitsOnly_bind emitsOnly_pairsForRemoval (fun pairs => ?_)
  cases pairs
  · exact emitsOnly_throwM _ _
  · exact emitsOnly_mkCall _ (h2 _ _ _)

theorem emitsOnly_deleteStep {env : Env} {pid : String} {toDel : List IdPair}
    {p : RemoteCall → Bool}
    (h1 : p (RemoteCall.getPlaylistSongs pid) = true)
    (h2 : ∀ a b c, p (RemoteCall.deleteSongs a b c) = true) :
    EmitsOnly (deleteStep env pid toDel) p := by
  unfold deleteStep
  exact emitsOnly_ite (emitsOnly_pure _ _)
    (emitsOnly_bind (emitsOnly_remove_entries h1 h2) (fun _ => emitsOnly_pure _ _))

theorem emitsOnly_addStep {env : Env} {pid : String} {toAdd toKeep : List IdPair}
    {desired : List Track} {p : RemoteCall → Bool}
    (h : ∀ sids, p (RemoteCall.addToPlaylist pid sids) = true) :
    EmitsOnly (addStep env pid toAdd toKeep desired) p := by
  unfold addStep
  exact emitsOnly_ite (emitsOnly_pure _ _)
    (emitsOnly_bind (emitsOnly_add_songs_to_playlist (h _)) (fun _ => emitsOnly_pure _ _))

theorem emitsOnly_orderStep {imports : List String} {env : Env} {pid : String}
    {desired : List Track} {p : RemoteCall → Bool}
    (h : ∀ a b c, p (RemoteCall.changePlaylistOrder a b c) = true) :
    EmitsOnly (orderStep imports env pid desired) p := by
  unfold orderStep
  refine emitsOnly_ite (emitsOnly_pure _ _) ?_
  refine emitsOnly_bind emitsOnly_lookupName (fun _ => ?_)
  cases get_id_pairs desired.reverse
  · exact emitsOnly_throwM _ _
  · exact emitsOnly_ite (emitsOnly_pure _ _) (emitsOnly_mkCall _ (h _ _ _))

theorem emitsOnly_attemptMutation {imports : List String} {env : Env} {pid : String}
    {serverTracks desired : List Track} {p : RemoteCall → Bool}
    (h1 : p (RemoteCall.getPlaylistSongs pid) = true)
    (h2 : ∀ a b c, p (RemoteCall.deleteSongs a b c) = true)
    (h3 : ∀ sids, p (RemoteCall.addToPlaylist pid sids) = true)
    (h4 : ∀ a b c, p (RemoteCall.changePlaylistOrder a b c) = true) :
    EmitsOnly (attemptMutation imports env pid serverTracks desired) p := by
  unfold attemptMutation
  refine emitsOnly_bind emitsOnly_lookupName (fun _ => ?_)
  rcases find_playlist_changes serverTracks desired with ⟨toDel, toAdd, toKeep⟩
  exact emitsOnly_bind (emitsOnly_deleteStep h1 h2) (fun _ =>
    emitsOnly_bind (emitsOnly_addStep h3) (fun d1 => emitsOnly_orderStep h4))

theorem emitsOnly_attempt {imports : List String} {env : Env} {pid : String}
    {serverTracks desired : List Track} {safe : Bool} {bid : String} {p : RemoteCall → Bool}
    (h1 : p (RemoteCall.getPlaylistSongs pid) = true)
    (h2 : ∀ a b c, p (RemoteCall.deleteSongs a b c) = true)
    (h3 : ∀ sids, p (RemoteCall.addToPlaylist pid sids) = true)
    (h4 : ∀ a b c, p (RemoteCall.changePlaylistOrder a b c) = true)
    (h5 : p (RemoteCall.deletePlaylist bid) = true) :
    EmitsOnly (change_playlistAttempt imports env pid serverTracks desired safe bid) p := by
  unfold change_playlistAttempt
  refine emitsOnly_bind (emitsOnly_attemptMutation h1 h2 h3 h4) (fun _ => ?_)
  exact emitsOnly_ite
    (emitsOnly_bind (emitsOnly_delete_playlist h5) (fun _ => emitsOnly_pure _ _))
    (emitsOnly_pure _ _)

theorem emitsOnly_prelude {imports : List String} {env : Env} {pid : String}
    {desired : List Track} {safe : Bool} {p : RemoteCall → Bool}
    (h1 : ∀ q, p (RemoteCall.getPlaylistSongs q) = true)
    (h2 : ∀ n, p (RemoteCall.addPlaylist n) = true)
    (h3 : ∀ b sids, p (RemoteCall.addToPlaylist b sids) = true) :
    EmitsOnly (change_playlistPrelude imports env pid desired safe) p := by
  unfold change_playlistPrelude
  refine emitsOnly_bind ?_ (fun dcopy => ?_)
  · unfold deepcopyStep
    cases desired
    · exact emitsOnly_pure _ _
    · exact emitsOnly_bind emitsOnly_lookupName (fun _ => emitsOnly_pure _ _)
  · refine emitsOnly_bind (emitsOnly_get_playlist_songs (h1 _)) (fun server => ?_)
    refine emitsOnly_ite ?_ (emitsOnly_pure _ _)
    refine emitsOnly_bind (emitsOnly_get_all_playlist_ids_user (h1 _)) (fun nti => ?_)
    refine emitsOnly_bind emitsOnly_firstNameFor (fun name => ?_)
    exact emitsOnly_bind (emitsOnly_copy_playlist (h1 _) (h2 _) h3) (fun b =>
      emitsOnly_pure _ _)

theorem emitsOnly_change_playlist {imports : List String} {env : Env} {pid : String}
    {desired : List Track} {safe : Bool} {p : RemoteCall → Bool}
    (h1 : ∀ q, p (RemoteCall.getPlaylistSongs q) = true)
    (h2 : ∀ n, p (RemoteCall.addPlaylist n) = true)
    (h3 : ∀ b sids, p (RemoteCall.addToPlaylist b sids) = true)
    (h4 : ∀ a b c, p (RemoteCall.deleteSongs a b c) = true)
    (h5 : ∀ a b c, p (RemoteCall.changePlaylistOrder a b c) = true)
    (h6 : ∀ a, p (RemoteCall.deletePlaylist a) = true)
    (h7 : ∀ a b, p (RemoteCall.changePlaylistName a b) = true) :
    EmitsOnly (change_playlist imports env pid desired safe) p := by
  unfold change_playlist
  refine emitsOnly_bind (emitsOnly_prelude h1 h2 h3) (fun pre => ?_)
  rcases pre with ⟨dcopy, server, name, bid⟩
  refine emitsOnly_catch ?_ (fun m => ?_)
  · exact emitsOnly_bind (emitsOnly_attempt (h1 _) h4 (fun s => h3 _ _) h5 (h6 _))
      (fun _ => emitsOnly_pure _ _)
  · unfold change_playlistHandler recoverStep
    refine emitsOnly_ite ?_ (emitsOnly_throwM _ _)
    exact emitsOnly_bind (emitsOnly_delete_playlist (h6 _)) (fun _ =>
      emitsOnly_bind (emitsOnly_change_playlist_name (h7 _ _)) (fun _ =>
        emitsOnly_pure _ _))

theorem get_id_pairs_nil : get_id_pairs [] = [] := rfl

theorem get_id_pairs_cons (t : Track) (l : List Track) :
    get_id_pairs (t :: l) = (t.id, t.playlistEntryId) :: get_id_pairs l := rfl

theorem get_id_pairs_map_fst (l : List Track) :
    (get_id_pairs l).map Prod.fst = l.map Track.id := by
  simp [get_id_pairs, List.map_map]

theorem get_id_pairs_map_snd (l : List Track) :
    (get_id_pairs l).map Prod.snd = l.map Track.playlistEntryId := by
  simp [get_id_pairs, List.map_map]

theorem pairSidCount_cons (p : IdPair) (l : List IdPair) (s : String) :
    pairSidCount (p :: l) s = (if p.1 = s then 1 else 0) + pairSidCount l s := rfl

theorem sidCount_cons (t : Track) (l : List Track) (s : String) :
    sidCount (t :: l) s = (if t.id = s then 1 else 0) + sidCount l s := rfl

theorem decBudget_ne (b : String → Nat) (s x : String) (h : ¬ x = s) :
    decBudget b s x = b x := by
  simp [decBudget, if_neg h]

theorem decBudget_self (b : String → Nat) (s : String) :
    decBudget b s s = b s - 1 := by
  simp [decBudget]

theorem splitKeep_cons_pos (b : String → Nat) (t : Track) (rest : List Track)
    (h : 0 < b t.id) :
    splitKeep b (t :: rest) =
      (((t.id, t.playlistEntryId) : IdPair) :: (splitKeep (decBudget b t.id) rest).1,
        (splitKeep (decBudget b t.id) rest).2) := by
  simp [splitKeep, if_pos h]

theorem splitKeep_cons_neg (b : String → Nat) (t : Track) (rest : List Track)
    (h : ¬ 0 < b t.id) :
    splitKeep b (t :: rest) =
      ((splitKeep b rest).1,
        ((t.id, t.playlistEntryId) : IdPair) :: (splitKeep b rest).2) := by
  simp [splitKeep, if_neg h]

theorem splitKeep_perm (b : String → Nat) (l : List Track) :
    ((splitKeep b l).1 ++ (splitKeep b l).2).Perm (get_id_pairs l) := by
  induction l generalizing b with
  | nil => simp [splitKeep, get_id_pairs]
  | cons t rest ih =>
    rw [get_id_pairs_cons]
    by_cases h : 0 < b t.id
    · rw [splitKeep_cons_pos b t rest h]
      exact ((ih (decBudget b t.id)).cons _)
    · rw [splitKeep_cons_neg b t rest h]
      exact List.perm_middle.trans ((ih b).cons _)

theorem splitKeep_keep_count (b : String → Nat) (l : List Track) (s : String) :
    pairSidCount (splitKeep b l).1 s = min (b s) (sidCount l s) := by
  induction l generalizing b with
  | nil => simp [splitKeep, pairSidCount, sidCount]
  | cons t rest ih =>
    by_cases h : 0 < b t.id
    · rw [splitKeep_cons_pos b t rest h, pairSidCount_cons, sidCount_cons,
        ih (decBudget b t.id)]
      by_cases hts : t.id = s
      · rw [if_pos hts]
        rw [hts] at h ⊢
        rw [decBudget_self]
        omega
      · rw [if_neg hts, decBudget_ne b t.id s (fun hh => hts hh.symm)]
        omega
    · rw [splitKeep_cons_neg b t rest h, sidCount_cons, ih b]
      by_cases hts : t.id = s
      · rw [if_pos hts]
        rw [hts] at h
        omega
      · rw [if_neg hts]
        omega

theorem excessAdd_count (b : String → Nat) (l : List Track) (s : String) :
    pairSidCount (excessAdd b l) s = sidCount l s - b s := by
  induction l generalizing b with
  | nil => simp [excessAdd, pairSidCount, sidCount]
  | cons t rest ih =>
    unfold excessAdd
    by_cases h : 0 < b t.id
    · rw [if_pos h, sidCount_cons, ih (decBudget b t.id)]
      by_cases hts : t.id = s
      · rw [if_pos hts]
        rw [hts] at h ⊢
        rw [decBudget_self]
        omega
      · rw [if_neg hts, decBudget_ne b t.id s (fun hh => hts hh.symm)]
        omega
    · rw [if_neg h, pairSidCount_cons, sidCount_cons, ih b]
      by_cases hts : t.id = s
      · rw [if_pos hts]
        rw [hts] at h
        omega
      · rw [if_neg hts]
        omega

theorem splitKeep_zero (b : String → Nat) (l : List Track) (hb : ∀ s, b s = 0) :
    splitKeep b l = ([], get_id_pairs l) := by
  induction l with
  | nil => rfl
  | cons t rest ih =>
    unfold splitKeep
    have h : ¬ 0 < b t.id := by rw [hb t.id]; omega
    simp only [if_neg h, ih, get_id_pairs_cons]

theorem find_playlist_changes_nil (server : List Track) :
    find_playlist_changes server [] = (get_id_pairs server, [], []) := by
  unfold find_playlist_changes
  rw [splitKeep_zero _ _ (fun s => by simp [sidCount])]
  rfl

theorem deepcopyStep_nil (imports : List String) :
    deepcopyStep imports [] = (pure [] : M (List Track)) := rfl

theorem foldBack_map_id (d : List Track) (k : List IdPair)
    (m : List (String × String × List String)) :
    (foldBack d k m).map Track.id = d.map Track.id := by
  induction d generalizing k m with
  | nil => rfl
  | cons t rest ih =>
    unfold foldBack
    cases popEid m t.id with
    | none => simp [ih]
    | some em =>
      by_cases hk : ((t.id, t.playlistEntryId) : IdPair) ∈ k
      · simp [if_pos hk, ih]
      · simp [if_neg hk, ih]

theorem lookupName_intended_tools : lookupName intendedImports "tools" = pure () := by
  unfold lookupName
  rw [if_pos (by decide)]

theorem lookupName_intended_copy : lookupName intendedImports "copy" = pure () := by
  unfold lookupName
  rw [if_pos (by decide)]

theorem lookupName_module_tools :
    lookupName moduleImports "tools" = throwM (PyErr.nameError "tools") := by
  unfold lookupName
  rw [if_neg (by decide)]

theorem lookupName_module_copy :
    lookupName moduleImports "copy" = throwM (PyErr.nameError "copy") := by
  unfold lookupName
  rw [if_neg (by decide)]

theorem emitsOnly_bind_ok {α β : Type} {x : M α} {f : α → M β} {p : RemoteCall → Bool}
    (hx : EmitsOnly x p)
    (hf : ∀ a t t1, x t = (Except.ok a, t1) → EmitsOnly (f a) p) :
    EmitsOnly (x >>= f) p := by
  intro t
  obtain ⟨s, hs, hall⟩ := hx t
  rw [M.bind_apply]
  cases hxt : x t with
  | mk r t1 =>
    rw [hxt] at hs
    have ht1 : t1 = t ++ s := hs
    cases r with
    | ok a =>
      obtain ⟨s2, hs2, hall2⟩ := hf a t t1 hxt t1
      refine ⟨s ++ s2, ?_, ?_⟩
      · rw [hs2, ht1, List.append_assoc]
      · simp [List.all_append, hall, hall2]
    | error e => exact ⟨s, hs, hall⟩

theorem bind_ok_at {α β : Type} {x : M α} {f : α → M β} {t t1 : List RemoteCall} {a : α}
    (hx : x t = (Except.ok a, t1)) : (x >>= f) t = f a t1 := by
  rw [M.bind_apply, hx]

theorem bind_error_at {α β : Type} {x : M α} {f : α → M β} {t t1 : List RemoteCall} {e : PyErr}
    (hx : x t = (Except.error e, t1)) : (x >>= f) t = (Except.error e, t1) := by
  rw [M.bind_apply, hx]

theorem deepcopyStep_nil_apply (imports : List String) (t : List RemoteCall) :
    deepcopyStep imports [] t = (Except.ok [], t) := rfl

theorem prelude_nil_fst {imports : List String} {env : Env} {pid : String} {safe : Bool}
    {t t' : List RemoteCall} {r : List Track × List Track × String × String}
    (h : change_playlistPrelude imports env pid [] safe t = (Except.ok r, t')) :
    r.1 = [] := by
  unfold change_playlistPrelude at h
  rw [bind_ok_at (deepcopyStep_nil_apply imports t)] at h
  cases hg : get_playlist_songs env pid t with
  | mk rg tg =>
    cases rg with
    | error e => rw [bind_error_at hg] at h; simp at h
    | ok server =>
      rw [bind_ok_at hg] at h
      cases safe with
      | false =>
        simp only [Bool.false_eq_true, if_false, M.pure_apply] at h
        simp only [Prod.mk.injEq, Except.ok.injEq] at h
        rw [← h.1]
      | true =>
        simp only [if_true] at h
        cases hn : get_all_playlist_ids_user env tg with
        | mk rn tn =>
          cases rn with
          | error e => rw [bind_error_at hn] at h; simp at h
          | ok nti =>
            rw [bind_ok_at hn] at h
            cases hm : firstNameFor nti pid tn with
            | mk rm tm =>
              cases rm with
              | error e => rw [bind_error_at hm] at h; simp at h
              | ok name =>
                rw [bind_ok_at hm] at h
                cases hc : copy_playlist env pid (name ++ "_gmusicapi_backup") tm with
                | mk rc tc =>
                  cases rc with
                  | error e => rw [bind_error_at hc] at h; simp at h
                  | ok bid =>
                    rw [bind_ok_at hc, M.pure_apply] at h
                    simp only [Prod.mk.injEq, Except.ok.injEq] at h
                    rw [← h.1]

theorem pairSidCount_append (a b : List IdPair) (s : String) :
    pairSidCount (a ++ b) s = pairSidCount a s + pairSidCount b s := by
  induction a with
  | nil => simp [pairSidCount]
  | cons p rest ih => simp [pairSidCount, ih]; omega

/-- C7: for every server/desired pair, the change set conserves both
lists as multisets: `to_delete ++ to_keep` is a permutation of the server
list's `(song_id, entry_id)` pairs, and the song-id multiset of
`to_add ++ to_keep` equals the desired list's song-id multiset (stated
via counts); in particular, for server `[A, A, B]` and desired `[A]`
exactly one `A` entry is deleted — not both and not zero. -/
theorem c7_changeset_conservation (server desired : List Track) :
    (((find_playlist_changes server desired).1 ++
        (find_playlist_changes server desired).2.2).Perm (get_id_pairs server))
    ∧ (∀ s, pairSidCount ((find_playlist_changes server desired).2.1 ++
        (find_playlist_changes server desired).2.2) s = sidCount desired s)
    ∧ find_playlist_changes [⟨"A", some "e1"⟩, ⟨"A", some "e2"⟩, ⟨"B", some "e3"⟩]
        [⟨"A", some "e1"⟩] =
      ([("A", some "e2"), ("B", some "e3")], [], [("A", some "e1")]) := by
  refine ⟨?_, ?_, ?_⟩
  · simp only [find_playlist_changes]
    exact List.perm_append_comm.trans (splitKeep_perm _ _)
  · intro s
    simp only [find_playlist_changes]
    rw [pairSidCount_append, splitKeep_keep_count, excessAdd_count]
    omega
  · decide

/-- C8: with an empty desired list, the diff puts every server entry in
`to_delete` and leaves `to_add` and `to_keep` empty, and `change_playlist`
never issues the remote order-setting call, for any environment and
either safety mode. -/
theorem c8_empty_desired_skips_reorder (server : List Track) (env : Env) (pid : String)
    (safe : Bool) :
    find_playlist_changes server [] = (get_id_pairs server, [], [])
    ∧ ((run (change_playlist intendedImports env pid [] safe)).2.all
        (fun c => !(isOrderCall c))) = true := by
  constructor
  · exact find_playlist_changes_nil server
  · have he : EmitsOnly (change_playlist intendedImports env pid [] safe)
        (fun c => !(isOrderCall c)) := by
      unfold change_playlist
      refine emitsOnly_bind_ok
        (emitsOnly_prelude (fun q => rfl) (fun n => rfl) (fun b s => rfl))
        (fun pre t t1 hpre => ?_)
      rcases pre with ⟨dcopy, server2, name, bid⟩
      have hd : dcopy = [] := prelude_nil_fst hpre
      subst hd
      refine emitsOnly_catch ?_ (fun m => ?_)
      · refine emitsOnly_bind ?_ (fun _ => emitsOnly_pure _ _)
        unfold change_playlistAttempt
        refine emitsOnly_bind ?_ (fun _ => ?_)
        · unfold attemptMutation
          refine emitsOnly_bind emitsOnly_lookupName (fun _ => ?_)
          rw [find_playlist_changes_nil]
          refine emitsOnly_bind (emitsOnly_deleteStep rfl (fun a b c => rfl)) (fun _ => ?_)
          exact emitsOnly_pure () _
        · exact emitsOnly_ite (emitsOnly_bind (emitsOnly_delete_playlist rfl)
            (fun _ => emitsOnly_pure _ _)) (emitsOnly_pure _ _)
      · unfold change_playlistHandler recoverStep
        refine emitsOnly_ite ?_ (emitsOnly_throwM _ _)
        exact emitsOnly_bind (emitsOnly_delete_playlist rfl) (fun _ =>
          emitsOnly_bind (emitsOnly_change_playlist_name rfl) (fun _ => emitsOnly_pure _ _))
    obtain ⟨sfx, hsfx, hall⟩ := he []
    unfold run
    rw [hsfx]
    simpa using hall

theorem attemptMutation_module (env : Env) (pid : String) (server desired : List Track) :
    attemptMutation moduleImports env pid server desired =
      throwM (PyErr.nameError "tools") := by
  funext t
  unfold attemptMutation
  have hl : lookupName moduleImports "tools" t = (Except.error (PyErr.nameError "tools"), t) := by
    rw [lookupName_module_tools]; rfl
  rw [bind_error_at hl]
  rfl

theorem attempt_module (env : Env) (pid : String) (server desired : List Track)
    (safe : Bool) (bid : String) :
    change_playlistAttempt moduleImports env pid server desired safe bid =
      throwM (PyErr.nameError "tools") := by
  funext t
  unfold change_playlistAttempt
  have ha : attemptMutation moduleImports env pid server desired t =
      (Except.error (PyErr.nameError "tools"), t) := by
    rw [attemptMutation_module]; rfl
  rw [bind_error_at ha]
  rfl

theorem change_playlist_module_eq (env : Env) (pid : String) (desired : List Track)
    (safe : Bool) :
    change_playlist moduleImports env pid desired safe =
      (change_playlistPrelude moduleImports env pid desired safe >>= fun _ =>
        throwM (PyErr.nameError "tools")) := by
  funext t
  rw [M.bind_apply]
  unfold change_playlist
  rw [M.bind_apply]
  cases hp : change_playlistPrelude moduleImports env pid desired safe t with
  | mk rp tp =>
    cases rp with
    | error e => rfl
    | ok pre =>
      rcases pre with ⟨dcopy, server, name, bid⟩
      have hx : (change_playlistAttempt moduleImports env pid server dcopy safe bid >>=
          fun _ => pure pid) tp = (Except.error (PyErr.nameError "tools"), tp) := by
        refine bind_error_at ?_
        rw [attempt_module]; rfl
      exact catch_nameError hx

theorem prelude_cons_module (env : Env) (pid : String) (t0 : Track) (rest : List Track)
    (safe : Bool) :
    change_playlistPrelude moduleImports env pid (t0 :: rest) safe =
      throwM (PyErr.nameError "copy") := by
  funext t
  unfold change_playlistPrelude deepcopyStep
  have hl : lookupName moduleImports "copy" t = (Except.error (PyErr.nameError "copy"), t) := by
    rw [lookupName_module_copy]; rfl
  rw [bind_error_at (bind_error_at hl)]
  rfl

/-- C1 (amended): `change_playlist` as written in the module namespace of
webclient.py can never succeed and never issues a destructive call
(no entry deletion, no reorder, no playlist deletion, no rename) on any
playlist.  With a non-empty desired list it raises `NameError` on the
unimported `copy` at the deep-copy step, before any remote call at all —
so even with `safe` set, no backup is created.  Only with an empty
desired list does the prelude run: if it succeeds (which, with `safe`,
includes creating and populating the backup playlist), the unimported
`tools` then raises `NameError` at the diff step, before any
delete/add/reorder call. -/
theorem c1_namerror_no_mutation (env : Env) (pid : String) (desired : List Track)
    (safe : Bool) :
    (desired ≠ [] →
      run (change_playlist moduleImports env pid desired safe) =
        (Except.error (PyErr.nameError "copy"), []))
    ∧ isOkE (run (change_playlist moduleImports env pid desired safe)).1 = false
    ∧ ((run (change_playlist moduleImports env pid desired safe)).2.all
        (fun c => !(isDestructiveCall c))) = true
    ∧ (∀ server name bid t1,
        change_playlistPrelude moduleImports env pid desired safe [] =
          (Except.ok (desired, server, name, bid), t1) →
        run (change_playlist moduleImports env pid desired safe) =
          (Except.error (PyErr.nameError "tools"), t1)) := by
  refine ⟨?_, ?_, ?_, ?_⟩
  · intro hne
    cases desired with
    | nil => exact absurd rfl hne
    | cons t0 rest =>
      unfold run
      rw [change_playlist_module_eq]
      refine bind_error_at ?_
      rw [prelude_cons_module]
      rfl
  · unfold run
    rw [change_playlist_module_eq, M.bind_apply]
    cases hp : change_playlistPrelude moduleImports env pid desired safe [] with
    | mk rp tp =>
      cases rp with
      | error e => rfl
      | ok pre => rfl
  · have he : EmitsOnly (change_playlist moduleImports env pid desired safe)
        (fun c => !(isDestructiveCall c)) := by
      rw [change_playlist_module_eq]
      exact emitsOnly_bind
        (emitsOnly_prelude (fun q => rfl) (fun n => rfl) (fun b s => rfl))
        (fun _ => emitsOnly_throwM _ _)
    obtain ⟨sfx, hsfx, hall⟩ := he []
    unfold run
    rw [hsfx]
    simpa using hall
  · intro server name bid t1 hpre
    unfold run
    rw [change_playlist_module_eq]
    rw [bind_ok_at hpre]
    rfl

/-- C1, counterexample to the claim as stated: at the concrete non-empty
input, with `safe = true`, the call fails with `NameError` on `copy`
while the trace of issued remote calls is empty — in particular no
`AddPlaylist` call was made, so the backup playlist was *not* created
before the failure, contrary to the claim. -/
theorem c1_counterexample :
    run (change_playlist moduleImports envOk "p1" [⟨"s1", none⟩] true) =
      (Except.error (PyErr.nameError "copy"), []) := by rfl

theorem c1_witness :
    run (change_playlist moduleImports envOk "p1" [⟨"s1", none⟩] true) =
      (Except.error (PyErr.nameError "copy"), [])
    ∧ run (change_playlist moduleImports envOk "p1" [] true) =
      (Except.error (PyErr.nameError "tools"),
        [RemoteCall.getPlaylistSongs "p1", RemoteCall.getPlaylistSongs "all",
          RemoteCall.getPlaylistSongs "p1", RemoteCall.addPlaylist "My_gmusicapi_backup",
          RemoteCall.addToPlaylist "b1" ["s1"]]) :=
  ⟨(c1_namerror_no_mutation envOk "p1" [⟨"s1", none⟩] true).1 (by simp),
   (c1_namerror_no_mutation envOk "p1" [] true).2.2.2
     [⟨"s1", some "e1"⟩] "My" "b1" _ rfl⟩

/-- C9 (amended): `get_playlist_songs` does not fail with a NotFound
error on an unknown playlist id — per its own docstring (webclient.py
line 228) the server answers with an empty track list for a
non-existent playlist, so an empty result does not distinguish a missing
playlist from an existing empty one; the only failure the method can
raise is the generic `CallFailure` of the transport. -/
theorem c9_unknown_id_returns_empty (db : List (String × List Track)) (pid : String)
    (h : db.lookup pid = none) :
    run (get_playlist_songs (serverEnvOf db) pid) =
      (Except.ok [], [RemoteCall.getPlaylistSongs pid]) := by
  have hresp : (serverEnvOf db).playlistSongs pid = Except.ok [] := by
    unfold serverEnvOf
    simp [h]
  unfold run get_playlist_songs
  rw [mkCall_ok _ hresp]
  rfl

/-- C9, counterexample to the claim as stated: on a server with no
playlists at all, fetching an unknown playlist id returns `Except.ok []`
— the very same empty list as for an existing empty playlist — rather
than failing with a NotFound error. -/
theorem c9_counterexample :
    run (get_playlist_songs (serverEnvOf []) "unknown") =
      (Except.ok [], [RemoteCall.getPlaylistSongs "unknown"]) := by rfl

theorem c9_witness :
    run (get_playlist_songs (serverEnvOf [("p2", [])]) "p1") =
      (Except.ok [], [RemoteCall.getPlaylistSongs "p1"]) :=
  c9_unknown_id_returns_empty [("p2", [])] "p1" (by decide)

theorem pairsForRemoval_no_match (eids : List (Option String)) :
    ∀ (tracks : List Track) (t : List RemoteCall),
      (∀ tr ∈ tracks, tr.playlistEntryId ≠ none ∧ tr.playlistEntryId ∉ eids) →
      pairsForRemoval tracks eids t = (Except.ok [], t) := by
  intro tracks
  induction tracks with
  | nil => intro t h; rfl
  | cons tr rest ih =>
    intro t h
    obtain ⟨h1, h2⟩ := h tr (by simp)
    unfold pairsForRemoval
    cases hpe : tr.playlistEntryId with
    | none => exact absurd hpe h1
    | some e =>
      have hre : requireEid tr t = (Except.ok e, t) := by
        unfold requireEid; rw [hpe]; rfl
      rw [bind_ok_at hre,
        bind_ok_at (ih t (fun x hx => h x (List.mem_cons_of_mem _ hx)))]
      have hmem : ¬ ((some e) ∈ eids) := by
        rw [← hpe]; exact h2
      rw [if_neg hmem]
      rfl

/-- C10 (amended): a call to `_remove_entries_from_playlist` that
supplies at least one entry id, none of which occurs among the entry ids
of the playlist's current tracks, raises `ValueError` at the
`sids, eids = zip(*e_s_id_pairs)` unzip of the empty pair list
(webclient.py line 555), after the read but before the remote
`DeleteSongs` call is issued.  (With an *empty* argument list the
`empty_arg_shortcircuit` decorator instead returns `[]` gracefully.) -/
theorem c10_remove_no_matches_unpack_error (env : Env) (pid : String)
    (eids : List (Option String)) (tracks : List Track)
    (hne : eids ≠ [])
    (hgps : env.playlistSongs pid = Except.ok tracks)
    (hmiss : ∀ tr ∈ tracks, tr.playlistEntryId ≠ none ∧ tr.playlistEntryId ∉ eids) :
    run (remove_entries_from_playlist env pid eids) =
      (Except.error (PyErr.valueError "need more than 0 values to unpack"),
        [RemoteCall.getPlaylistSongs pid]) := by
  have hie : ¬ (eids.isEmpty = true) := by
    cases eids with
    | nil => exact absurd rfl hne
    | cons a b => simp
  unfold run remove_entries_from_playlist
  rw [if_neg hie]
  have hg : get_playlist_songs env pid [] =
      (Except.ok tracks, [RemoteCall.getPlaylistSongs pid]) := by
    unfold get_playlist_songs
    rw [mkCall_ok _ hgps]
    rfl
  rw [bind_ok_at hg,
    bind_ok_at (pairsForRemoval_no_match eids tracks _ hmiss)]
  rfl

/-- C10, counterexample to the claim as stated: a call supplying *no*
entry ids — for which "none of the supplied entry ids occur in the
playlist's current tracks" holds vacuously — does not raise the
unpacking error: the `empty_arg_shortcircuit` decorator returns `[]`
without issuing any remote call at all. -/
theorem c10_counterexample :
    run (remove_entries_from_playlist envOk "p1" []) = (Except.ok [], []) := by rfl

theorem c10_witness :
    run (remove_entries_from_playlist envOk "p1" [some "zz"]) =
      (Except.error (PyErr.valueError "need more than 0 values to unpack"),
        [RemoteCall.getPlaylistSongs "p1"]) :=
  c10_remove_no_matches_unpack_error envOk "p1" [some "zz"] [⟨"s1", some "e1"⟩]
    (by simp) rfl (by decide)

theorem handler_safe (env : Env) (pid name bid m : String) :
    change_playlistHandler env pid true name bid m = recoverStep env pid bid name := rfl

theorem handler_reraise (env : Env) (pid name bid m : String) :
    change_playlistHandler env pid false name bid m = throwM (PyErr.callFailure m) := rfl

theorem recoverStep_ok {env : Env} {pid bid name x : String} (t : List RemoteCall)
    (hd : env.deletePlaylist pid = Except.ok x)
    (hc : env.changeName bid name = Except.ok ()) :
    recoverStep env pid bid name t =
      (Except.ok bid,
        t ++ [RemoteCall.deletePlaylist pid, RemoteCall.changePlaylistName bid name]) := by
  unfold recoverStep
  have hd' : delete_playlist env pid t =
      (Except.ok x, t ++ [RemoteCall.deletePlaylist pid]) := by
    unfold delete_playlist; rw [mkCall_ok _ hd]
  rw [bind_ok_at hd']
  have hc' : change_playlist_name env bid name (t ++ [RemoteCall.deletePlaylist pid]) =
      (Except.ok bid,
        (t ++ [RemoteCall.deletePlaylist pid]) ++ [RemoteCall.changePlaylistName bid name]) := by
    unfold change_playlist_name
    rw [bind_ok_at (mkCall_ok _ hc _)]
    rfl
  rw [bind_ok_at hc', M.pure_apply, List.append_assoc]
  rfl

theorem recoverStep_fail_delete {env : Env} {pid bid name m : String} (t : List RemoteCall)
    (hd : env.deletePlaylist pid = Except.error m) :
    recoverStep env pid bid name t =
      (Except.error (PyErr.callFailure m), t ++ [RemoteCall.deletePlaylist pid]) := by
  unfold recoverStep
  refine bind_error_at ?_
  unfold delete_playlist
  rw [mkCall_err _ hd]

theorem recoverStep_fail_rename {env : Env} {pid bid name x m : String} (t : List RemoteCall)
    (hd : env.deletePlaylist pid = Except.ok x)
    (hc : env.changeName bid name = Except.error m) :
    recoverStep env pid bid name t =
      (Except.error (PyErr.callFailure m),
        t ++ [RemoteCall.deletePlaylist pid, RemoteCall.changePlaylistName bid name]) := by
  unfold recoverStep
  have hd' : delete_playlist env pid t =
      (Except.ok x, t ++ [RemoteCall.deletePlaylist pid]) := by
    unfold delete_playlist; rw [mkCall_ok _ hd]
  rw [bind_ok_at hd']
  have hc' : change_playlist_name env bid name (t ++ [RemoteCall.deletePlaylist pid]) =
      (Except.error (PyErr.callFailure m),
        (t ++ [RemoteCall.deletePlaylist pid]) ++ [RemoteCall.changePlaylistName bid name]) := by
    unfold change_playlist_name
    refine bind_error_at ?_
    rw [mkCall_err _ hc]
  rw [bind_error_at hc', List.append_assoc]
  rfl

theorem change_playlist_run_catch {imports : List String} {env : Env} {pid : String}
    {desired dcopy server : List Track} {safe : Bool} {name bid : String}
    {t1 : List RemoteCall}
    (hpre : change_playlistPrelude imports env pid desired safe [] =
      (Except.ok (dcopy, server, name, bid), t1)) :
    run (change_playlist imports env pid desired safe) =
      catchCallFailure
        (change_playlistAttempt imports env pid server dcopy safe bid >>= fun _ => pure pid)
        (change_playlistHandler env pid safe name bid) t1 := by
  unfold run change_playlist
  rw [bind_ok_at hpre]

/-- C2: with `safe = true`, when the mutation attempt fails with a
`CallFailure` (as when a remote call in the delete/add/reorder sequence
fails), recovery runs: the original playlist is deleted and the backup is
renamed to the original name; if both sub-steps succeed, the backup id is
returned as the playlist's new identity; if either recovery sub-step
fails, that failure propagates to the caller. -/
theorem c2_safe_failure_recovery (env : Env) (pid : String) (desired server : List Track)
    (name bid : String) (t1 t2 : List RemoteCall) (msg : String)
    (hpre : change_playlistPrelude intendedImports env pid desired true [] =
      (Except.ok (desired, server, name, bid), t1))
    (hatt : change_playlistAttempt intendedImports env pid server desired true bid t1 =
      (Except.error (PyErr.callFailure msg), t2)) :
    (∀ x, env.deletePlaylist pid = Except.ok x → env.changeName bid name = Except.ok () →
      run (change_playlist intendedImports env pid desired true) =
        (Except.ok bid,
          t2 ++ [RemoteCall.deletePlaylist pid, RemoteCall.changePlaylistName bid name]))
    ∧ (∀ m2, env.deletePlaylist pid = Except.error m2 →
      run (change_playlist intendedImports env pid desired true) =
        (Except.error (PyErr.callFailure m2), t2 ++ [RemoteCall.deletePlaylist pid]))
    ∧ (∀ x m2, env.deletePlaylist pid = Except.ok x →
        env.changeName bid name = Except.error m2 →
      run (change_playlist intendedImports env pid desired true) =
        (Except.error (PyErr.callFailure m2),
          t2 ++ [RemoteCall.deletePlaylist pid, RemoteCall.changePlaylistName bid name])) := by
  refine ⟨?_, ?_, ?_⟩
  · intro x hd hc
    rw [change_playlist_run_catch hpre, catch_callFailure (bind_error_at hatt),
      handler_safe, recoverStep_ok t2 hd hc]
  · intro m2 hd
    rw [change_playlist_run_catch hpre, catch_callFailure (bind_error_at hatt),
      handler_safe, recoverStep_fail_delete t2 hd]
  · intro x m2 hd hc
    rw [change_playlist_run_catch hpre, catch_callFailure (bind_error_at hatt),
      handler_safe, recoverStep_fail_rename t2 hd hc]

theorem c2_witness :
    run (change_playlist intendedImports envAddFail "p1" [⟨"s2", none⟩] true) =
      (Except.ok "b1",
        [RemoteCall.getPlaylistSongs "p1", RemoteCall.getPlaylistSongs "all",
          RemoteCall.getPlaylistSongs "p1", RemoteCall.addPlaylist "My_gmusicapi_backup",
          RemoteCall.addToPlaylist "b1" ["s1"], RemoteCall.getPlaylistSongs "p1",
          RemoteCall.deleteSongs ["s1"] "p1" ["e1"], RemoteCall.addToPlaylist "p1" ["s2"],
          RemoteCall.deletePlaylist "p1", RemoteCall.changePlaylistName "b1" "My"])
    ∧ run (change_playlist intendedImports envAddFailRecoverFail "p1" [⟨"s2", none⟩] true) =
      (Except.error (PyErr.callFailure "recovery delete failed"),
        [RemoteCall.getPlaylistSongs "p1", RemoteCall.getPlaylistSongs "all",
          RemoteCall.getPlaylistSongs "p1", RemoteCall.addPlaylist "My_gmusicapi_backup",
          RemoteCall.addToPlaylist "b1" ["s1"], RemoteCall.getPlaylistSongs "p1",
          RemoteCall.deleteSongs ["s1"] "p1" ["e1"], RemoteCall.addToPlaylist "p1" ["s2"],
          RemoteCall.deletePlaylist "p1"]) :=
  ⟨(c2_safe_failure_recovery envAddFail "p1" [⟨"s2", none⟩] [⟨"s1", some "e1"⟩] "My" "b1"
      [RemoteCall.getPlaylistSongs "p1", RemoteCall.getPlaylistSongs "all",
        RemoteCall.getPlaylistSongs "p1", RemoteCall.addPlaylist "My_gmusicapi_backup",
        RemoteCall.addToPlaylist "b1" ["s1"]]
      [RemoteCall.getPlaylistSongs "p1", RemoteCall.getPlaylistSongs "all",
        RemoteCall.getPlaylistSongs "p1", RemoteCall.addPlaylist "My_gmusicapi_backup",
        RemoteCall.addToPlaylist "b1" ["s1"], RemoteCall.getPlaylistSongs "p1",
        RemoteCall.deleteSongs ["s1"] "p1" ["e1"], RemoteCall.addToPlaylist "p1" ["s2"]]
      "add failed" rfl rfl).1 "p1" rfl rfl,
   (c2_safe_failure_recovery envAddFailRecoverFail "p1" [⟨"s2", none⟩] [⟨"s1", some "e1"⟩]
      "My" "b1"
      [RemoteCall.getPlaylistSongs "p1", RemoteCall.getPlaylistSongs "all",
        RemoteCall.getPlaylistSongs "p1", RemoteCall.addPlaylist "My_gmusicapi_backup",
        RemoteCall.addToPlaylist "b1" ["s1"]]
      [RemoteCall.getPlaylistSongs "p1", RemoteCall.getPlaylistSongs "all",
        RemoteCall.getPlaylistSongs "p1", RemoteCall.addPlaylist "My_gmusicapi_backup",
        RemoteCall.addToPlaylist "b1" ["s1"], RemoteCall.getPlaylistSongs "p1",
        RemoteCall.deleteSongs ["s1"] "p1" ["e1"], RemoteCall.addToPlaylist "p1" ["s2"]]
      "add failed" rfl rfl).2.1 "recovery delete failed" rfl⟩

theorem emitsOnly_attempt_nobackup {imports : List String} {env : Env} {pid : String}
    {server desired : List Track} {bid : String} {p : RemoteCall → Bool}
    (h1 : p (RemoteCall.getPlaylistSongs pid) = true)
    (h2 : ∀ a b c, p (RemoteCall.deleteSongs a b c) = true)
    (h3 : ∀ sids, p (RemoteCall.addToPlaylist pid sids) = true)
    (h4 : ∀ a b c, p (RemoteCall.changePlaylistOrder a b c) = true) :
    EmitsOnly (change_playlistAttempt imports env pid server desired false bid) p := by
  unfold change_playlistAttempt
  refine emitsOnly_bind (emitsOnly_attemptMutation h1 h2 h3 h4) (fun _ => ?_)
  exact emitsOnly_pure () _

/-- C4: with `safe = false`, a `CallFailure` raised during the mutation
attempt propagates unchanged to the caller, the trace ends exactly where
the attempt ended, and no recovery call — no playlist deletion and no
playlist rename — is ever issued. -/
theorem c4_unsafe_failure_propagates (env : Env) (pid : String) (desired server : List Track)
    (t1 t2 : List RemoteCall) (msg : String)
    (hpre : change_playlistPrelude intendedImports env pid desired false [] =
      (Except.ok (desired, server, "", ""), t1))
    (hatt : change_playlistAttempt intendedImports env pid server desired false "" t1 =
      (Except.error (PyErr.callFailure msg), t2)) :
    run (change_playlist intendedImports env pid desired false) =
      (Except.error (PyErr.callFailure msg), t2)
    ∧ (t2.all (fun c => !(isRecoveryCall c))) = true := by
  constructor
  · rw [change_playlist_run_catch hpre, catch_callFailure (bind_error_at hatt),
      handler_reraise]
    rfl
  · obtain ⟨s0, hs0, hall0⟩ :=
      (@emitsOnly_prelude intendedImports env pid desired false
        (fun c => !(isRecoveryCall c))
        (fun q => rfl) (fun n => rfl) (fun b s => rfl)) []
    rw [hpre] at hs0
    have ht1 : t1 = [] ++ s0 := hs0
    obtain ⟨s1, hs1, hall1⟩ :=
      (@emitsOnly_attempt_nobackup intendedImports env pid server desired ""
        (fun c => !(isRecoveryCall c)) rfl (fun a b c => rfl) (fun sids => rfl)
        (fun a b c => rfl)) t1
    rw [hatt] at hs1
    have ht2 : t2 = t1 ++ s1 := hs1
    rw [ht2, ht1]
    simp [List.all_append, hall0, hall1]

theorem c4_witness :
    run (change_playlist intendedImports envAddFail "p1" [⟨"s2", none⟩] false) =
      (Except.error (PyErr.callFailure "add failed"),
        [RemoteCall.getPlaylistSongs "p1", RemoteCall.getPlaylistSongs "p1",
          RemoteCall.deleteSongs ["s1"] "p1" ["e1"], RemoteCall.addToPlaylist "p1" ["s2"]])
    ∧ (([RemoteCall.getPlaylistSongs "p1", RemoteCall.getPlaylistSongs "p1",
        RemoteCall.deleteSongs ["s1"] "p1" ["e1"],
        RemoteCall.addToPlaylist "p1" ["s2"]].all
          (fun c => !(isRecoveryCall c))) = true) :=
  c4_unsafe_failure_propagates envAddFail "p1" [⟨"s2", none⟩] [⟨"s1", some "e1"⟩]
    [RemoteCall.getPlaylistSongs "p1"]
    [RemoteCall.getPlaylistSongs "p1", RemoteCall.getPlaylistSongs "p1",
      RemoteCall.deleteSongs ["s1"] "p1" ["e1"], RemoteCall.addToPlaylist "p1" ["s2"]]
    "add failed" rfl rfl

theorem change_playlist_run_preludeError {imports : List String} {env : Env} {pid : String}
    {desired : List Track} {safe : Bool} {e : PyErr} {tp : List RemoteCall}
    (hpre : change_playlistPrelude imports env pid desired safe [] = (Except.error e, tp)) :
    run (change_playlist imports env pid desired safe) = (Except.error e, tp) := by
  unfold run change_playlist
  rw [bind_error_at hpre]

/-- C3 (amended): with `safe = true`, when the mutation sequence fully
succeeds but the final deletion of the backup playlist fails, that
`CallFailure` is caught by the same handler as any mutation failure —
the cleanup sits inside the `try` — so recovery *is* attempted: the
successfully mutated original playlist is deleted and the backup
(holding the pre-mutation state) is renamed to the original name.  On
recovery success the backup id, not the original id, is returned; on
recovery failure the error propagates. -/
theorem c3_cleanup_failure_triggers_recovery (env : Env) (pid : String)
    (desired server : List Track) (name bid : String) (t1 t2 : List RemoteCall) (m : String)
    (hpre : change_playlistPrelude intendedImports env pid desired true [] =
      (Except.ok (desired, server, name, bid), t1))
    (hmut : attemptMutation intendedImports env pid server desired t1 = (Except.ok (), t2))
    (hbfail : env.deletePlaylist bid = Except.error m) :
    (∀ x, env.deletePlaylist pid = Except.ok x → env.changeName bid name = Except.ok () →
      run (change_playlist intendedImports env pid desired true) =
        (Except.ok bid,
          (t2 ++ [RemoteCall.deletePlaylist bid]) ++
            [RemoteCall.deletePlaylist pid, RemoteCall.changePlaylistName bid name]))
    ∧ (∀ m2, env.deletePlaylist pid = Except.error m2 →
      run (change_playlist intendedImports env pid desired true) =
        (Except.error (PyErr.callFailure m2),
          (t2 ++ [RemoteCall.deletePlaylist bid]) ++ [RemoteCall.deletePlaylist pid])) := by
  have hattFull : change_playlistAttempt intendedImports env pid server desired true bid t1 =
      (Except.error (PyErr.callFailure m), t2 ++ [RemoteCall.deletePlaylist bid]) := by
    unfold change_playlistAttempt
    rw [bind_ok_at hmut]
    show (delete_playlist env bid >>= fun _ => pure ()) t2 = _
    refine bind_error_at ?_
    unfold delete_playlist
    rw [mkCall_err _ hbfail]
  constructor
  · intro x hd hc
    rw [change_playlist_run_catch hpre, catch_callFailure (bind_error_at hattFull),
      handler_safe, recoverStep_ok _ hd hc]
  · intro m2 hd
    rw [change_playlist_run_catch hpre, catch_callFailure (bind_error_at hattFull),
      handler_safe, recoverStep_fail_delete _ hd]

/-- C3, counterexample to the claim as stated: with `safe = true`, a run
in which every delete/add/reorder step succeeds but deleting the backup
fails returns the *backup* id `"b1"`, not the original `"p1"` the claim
requires, and its trace contains the recovery call deleting the original
(mutated) playlist, which the claim says must not be issued. -/
theorem c3_counterexample :
    (run (change_playlist intendedImports envCleanupFail "p1" [⟨"s1", some "e1"⟩] true)).1 =
      Except.ok "b1"
    ∧ (RemoteCall.deletePlaylist "p1") ∈
      (run (change_playlist intendedImports envCleanupFail "p1" [⟨"s1", some "e1"⟩] true)).2 := by
  have h : run (change_playlist intendedImports envCleanupFail "p1" [⟨"s1", some "e1"⟩] true) =
      (Except.ok "b1",
        [RemoteCall.getPlaylistSongs "p1", RemoteCall.getPlaylistSongs "all",
          RemoteCall.getPlaylistSongs "p1", RemoteCall.addPlaylist "My_gmusicapi_backup",
          RemoteCall.addToPlaylist "b1" ["s1"],
          RemoteCall.changePlaylistOrder "p1" ["s1"] [some "e1"],
          RemoteCall.deletePlaylist "b1", RemoteCall.deletePlaylist "p1",
          RemoteCall.changePlaylistName "b1" "My"]) := by rfl
  constructor
  · rw [h]
  · rw [h]
    decide

theorem c3_witness :
    run (change_playlist intendedImports envCleanupFail "p1" [⟨"s1", some "e1"⟩] true) =
      (Except.ok "b1",
        ([RemoteCall.getPlaylistSongs "p1", RemoteCall.getPlaylistSongs "all",
          RemoteCall.getPlaylistSongs "p1", RemoteCall.addPlaylist "My_gmusicapi_backup",
          RemoteCall.addToPlaylist "b1" ["s1"],
          RemoteCall.changePlaylistOrder "p1" ["s1"] [some "e1"]] ++
            [RemoteCall.deletePlaylist "b1"]) ++
          [RemoteCall.deletePlaylist "p1", RemoteCall.changePlaylistName "b1" "My"]) :=
  (c3_cleanup_failure_triggers_recovery envCleanupFail "p1" [⟨"s1", some "e1"⟩]
    [⟨"s1", some "e1"⟩] "My" "b1"
    [RemoteCall.getPlaylistSongs "p1", RemoteCall.getPlaylistSongs "all",
      RemoteCall.getPlaylistSongs "p1", RemoteCall.addPlaylist "My_gmusicapi_backup",
      RemoteCall.addToPlaylist "b1" ["s1"]]
    [RemoteCall.getPlaylistSongs "p1", RemoteCall.getPlaylistSongs "all",
      RemoteCall.getPlaylistSongs "p1", RemoteCall.addPlaylist "My_gmusicapi_backup",
      RemoteCall.addToPlaylist "b1" ["s1"],
      RemoteCall.changePlaylistOrder "p1" ["s1"] [some "e1"]]
    "cleanup failed" rfl rfl rfl).1 "p1" rfl rfl

theorem deepcopyStep_intended (desired : List Track) (t : List RemoteCall) :
    deepcopyStep intendedImports desired t = (Except.ok (desired.map deepcopy), t) := by
  cases desired with
  | nil => rfl
  | cons a b =>
    show (lookupName intendedImports "copy" >>=
      fun _ => (pure ((a :: b).map deepcopy) : M (List Track))) t = _
    have hl : lookupName intendedImports "copy" t = (Except.ok (), t) := by
      rw [lookupName_intended_copy]; rfl
    rw [bind_ok_at hl]
    rfl

/-- C5: with `safe = true`, the backup snapshot — fetch the current
tracks, create a playlist named the original name with the fixed suffix
`"_gmusicapi_backup"`, and add all current tracks to it in original
order — is issued before any other call: if backup creation fails, the
whole operation aborts with that error propagated and the trace contains
no destructive call at all; if it succeeds, the full trace extends the
snapshot calls, so every delete/add/reorder of the target playlist comes
after them. -/
theorem c5_snapshot_guard (env : Env) (pid : String) (desired server : List Track)
    (pl : List (String × String)) (name : String) (ids : List String)
    (hgps : env.playlistSongs pid = Except.ok server)
    (hall : env.allPlaylists = Except.ok pl)
    (hname : (playlistListToDict pl).find? (fun e => pid ∈ e.2) = some (name, ids)) :
    (∀ m, env.addPlaylist (name ++ "_gmusicapi_backup") = Except.error m →
      run (change_playlist intendedImports env pid desired true) =
        (Except.error (PyErr.callFailure m),
          [RemoteCall.getPlaylistSongs pid, RemoteCall.getPlaylistSongs "all",
            RemoteCall.getPlaylistSongs pid,
            RemoteCall.addPlaylist (name ++ "_gmusicapi_backup")])
      ∧ ([RemoteCall.getPlaylistSongs pid, RemoteCall.getPlaylistSongs "all",
            RemoteCall.getPlaylistSongs pid,
            RemoteCall.addPlaylist (name ++ "_gmusicapi_backup")].all
          (fun c => !(isDestructiveCall c))) = true)
    ∧ (∀ bid, env.addPlaylist (name ++ "_gmusicapi_backup") = Except.ok bid →
      ∃ rest, (run (change_playlist intendedImports env pid desired true)).2 =
        ([RemoteCall.getPlaylistSongs pid, RemoteCall.getPlaylistSongs "all",
          RemoteCall.getPlaylistSongs pid,
          RemoteCall.addPlaylist (name ++ "_gmusicapi_backup")] ++
          (if (server.map Track.id).isEmpty then []
            else [RemoteCall.addToPlaylist bid (server.map Track.id)])) ++ rest) := by
  have h1 : ∀ t, get_playlist_songs env pid t =
      (Except.ok server, t ++ [RemoteCall.getPlaylistSongs pid]) := fun t => by
    unfold get_playlist_songs; rw [mkCall_ok _ hgps]
  have h2 : ∀ t, get_all_playlist_ids_user env t =
      (Except.ok (playlistListToDict pl), t ++ [RemoteCall.getPlaylistSongs "all"]) :=
    fun t => by
      unfold get_all_playlist_ids_user
      rw [bind_ok_at (mkCall_ok _ hall t)]
      rfl
  have h3 : ∀ t, firstNameFor (playlistListToDict pl) pid t = (Except.ok name, t) :=
    fun t => by
      unfold firstNameFor
      rw [hname]
      rfl
  constructor
  · intro m hm
    have hcrE : ∀ t, create_playlist env (name ++ "_gmusicapi_backup") t =
        (Except.error (PyErr.callFailure m),
          t ++ [RemoteCall.addPlaylist (name ++ "_gmusicapi_backup")]) := fun t => by
      unfold create_playlist; rw [mkCall_err _ hm]
    have hpreE : change_playlistPrelude intendedImports env pid desired true [] =
        (Except.error (PyErr.callFailure m),
          [RemoteCall.getPlaylistSongs pid, RemoteCall.getPlaylistSongs "all",
            RemoteCall.getPlaylistSongs pid,
            RemoteCall.addPlaylist (name ++ "_gmusicapi_backup")]) := by
      unfold change_playlistPrelude
      rw [bind_ok_at (deepcopyStep_intended desired []), bind_ok_at (h1 []), if_pos rfl,
        bind_ok_at (h2 _), bind_ok_at (h3 _)]
      refine bind_error_at ?_
      unfold copy_playlist
      rw [bind_ok_at (h1 _)]
      refine bind_error_at ?_
      rw [hcrE]
      rfl
    exact ⟨change_playlist_run_preludeError hpreE, by rfl⟩
  · intro bid hbid
    have hcr : ∀ t, create_playlist env (name ++ "_gmusicapi_backup") t =
        (Except.ok bid,
          t ++ [RemoteCall.addPlaylist (name ++ "_gmusicapi_backup")]) := fun t => by
      unfold create_playlist; rw [mkCall_ok _ hbid]
    have hEO : EmitsOnly (catchCallFailure
        (change_playlistAttempt intendedImports env pid server (desired.map deepcopy) true bid
          >>= fun _ => pure pid)
        (change_playlistHandler env pid true name bid)) (fun _ => true) := by
      refine emitsOnly_catch ?_ (fun m2 => ?_)
      · exact emitsOnly_bind
          (emitsOnly_attempt rfl (fun a b c => rfl) (fun s => rfl) (fun a b c => rfl) rfl)
          (fun _ => emitsOnly_pure _ _)
      · unfold change_playlistHandler recoverStep
        refine emitsOnly_ite ?_ (emitsOnly_throwM _ _)
        exact emitsOnly_bind (emitsOnly_delete_playlist rfl) (fun _ =>
          emitsOnly_bind (emitsOnly_change_playlist_name rfl) (fun _ => emitsOnly_pure _ _))
    by_cases he : (server.map Track.id).isEmpty = true
    · have haddb : ∀ t, add_songs_to_playlist env bid (server.map Track.id) t =
          (Except.ok [], t) := fun t => by
        unfold add_songs_to_playlist
        rw [if_pos he]
        rfl
      have hcopy : ∀ t, copy_playlist env pid (name ++ "_gmusicapi_backup") t =
          (Except.ok bid,
            (t ++ [RemoteCall.getPlaylistSongs pid]) ++
              [RemoteCall.addPlaylist (name ++ "_gmusicapi_backup")]) := fun t => by
        unfold copy_playlist
        rw [bind_ok_at (h1 t), bind_ok_at (hcr _), bind_ok_at (haddb _),
          M.pure_apply]
      have hpre : change_playlistPrelude intendedImports env pid desired true [] =
          (Except.ok (desired.map deepcopy, server, name, bid),
            [RemoteCall.getPlaylistSongs pid, RemoteCall.getPlaylistSongs "all",
              RemoteCall.getPlaylistSongs pid,
              RemoteCall.addPlaylist (name ++ "_gmusicapi_backup")]) := by
        unfold change_playlistPrelude
        rw [bind_ok_at (deepcopyStep_intended desired []), bind_ok_at (h1 []), if_pos rfl,
          bind_ok_at (h2 _), bind_ok_at (h3 _), bind_ok_at (hcopy _), M.pure_apply]
        rfl
      obtain ⟨rest, hr, _⟩ := hEO
        [RemoteCall.getPlaylistSongs pid, RemoteCall.getPlaylistSongs "all",
          RemoteCall.getPlaylistSongs pid,
          RemoteCall.addPlaylist (name ++ "_gmusicapi_backup")]
      refine ⟨rest, ?_⟩
      rw [change_playlist_run_catch hpre, hr, if_pos he, List.append_nil]
    · cases hadd : env.addToPlaylist bid (server.map Track.id) with
      | error m2 =>
        have haddb : ∀ t, add_songs_to_playlist env bid (server.map Track.id) t =
            (Except.error (PyErr.callFailure m2),
              t ++ [RemoteCall.addToPlaylist bid (server.map Track.id)]) := fun t => by
          unfold add_songs_to_playlist
          rw [if_neg he, mkCall_err _ hadd]
        have hpreE2 : change_playlistPrelude intendedImports env pid desired true [] =
            (Except.error (PyErr.callFailure m2),
              [RemoteCall.getPlaylistSongs pid, RemoteCall.getPlaylistSongs "all",
                RemoteCall.getPlaylistSongs pid,
                RemoteCall.addPlaylist (name ++ "_gmusicapi_backup"),
                RemoteCall.addToPlaylist bid (server.map Track.id)]) := by
          unfold change_playlistPrelude
          rw [bind_ok_at (deepcopyStep_intended desired []), bind_ok_at (h1 []), if_pos rfl,
            bind_ok_at (h2 _), bind_ok_at (h3 _)]
          refine bind_error_at ?_
          unfold copy_playlist
          rw [bind_ok_at (h1 _), bind_ok_at (hcr _)]
          exact bind_error_at (haddb _)
        refine ⟨[], ?_⟩
        rw [change_playlist_run_preludeError hpreE2, if_neg he, List.append_nil]
        rfl
      | ok np =>
        have haddb : ∀ t, add_songs_to_playlist env bid (server.map Track.id) t =
            (Except.ok np, t ++ [RemoteCall.addToPlaylist bid (server.map Track.id)]) :=
          fun t => by
            unfold add_songs_to_playlist
            rw [if_neg he, mkCall_ok _ hadd]
        have hcopy : ∀ t, copy_playlist env pid (name ++ "_gmusicapi_backup") t =
            (Except.ok bid,
              ((t ++ [RemoteCall.getPlaylistSongs pid]) ++
                [RemoteCall.addPlaylist (name ++ "_gmusicapi_backup")]) ++
                [RemoteCall.addToPlaylist bid (server.map Track.id)]) := fun t => by
          unfold copy_playlist
          rw [bind_ok_at (h1 t), bind_ok_at (hcr _), bind_ok_at (haddb _),
            M.pure_apply]
        have hpre : change_playlistPrelude intendedImports env pid desired true [] =
            (Except.ok (desired.map deepcopy, server, name, bid),
              [RemoteCall.getPlaylistSongs pid, RemoteCall.getPlaylistSongs "all",
                RemoteCall.getPlaylistSongs pid,
                RemoteCall.addPlaylist (name ++ "_gmusicapi_backup"),
                RemoteCall.addToPlaylist bid (server.map Track.id)]) := by
          unfold change_playlistPrelude
          rw [bind_ok_at (deepcopyStep_intended desired []), bind_ok_at (h1 []), if_pos rfl,
            bind_ok_at (h2 _), bind_ok_at (h3 _), bind_ok_at (hcopy _), M.pure_apply]
          rfl
        obtain ⟨rest, hr, _⟩ := hEO
          [RemoteCall.getPlaylistSongs pid, RemoteCall.getPlaylistSongs "all",
            RemoteCall.getPlaylistSongs pid,
            RemoteCall.addPlaylist (name ++ "_gmusicapi_backup"),
            RemoteCall.addToPlaylist bid (server.map Track.id)]
        refine ⟨rest, ?_⟩
        rw [change_playlist_run_catch hpre, hr, if_neg he]
        rfl

theorem c5_witness :
    (∃ rest, (run (change_playlist intendedImports envOk "p1" [⟨"s2", none⟩] true)).2 =
      ([RemoteCall.getPlaylistSongs "p1", RemoteCall.getPlaylistSongs "all",
        RemoteCall.getPlaylistSongs "p1", RemoteCall.addPlaylist "My_gmusicapi_backup"] ++
        (if (([⟨"s1", some "e1"⟩] : List Track).map Track.id).isEmpty then []
          else [RemoteCall.addToPlaylist "b1"
            (([⟨"s1", some "e1"⟩] : List Track).map Track.id)])) ++ rest)
    ∧ run (change_playlist intendedImports envSnapFail "p1" [⟨"s2", none⟩] true) =
      (Except.error (PyErr.callFailure "create failed"),
        [RemoteCall.getPlaylistSongs "p1", RemoteCall.getPlaylistSongs "all",
          RemoteCall.getPlaylistSongs "p1", RemoteCall.addPlaylist "My_gmusicapi_backup"]) :=
  ⟨(c5_snapshot_guard envOk "p1" [⟨"s2", none⟩] [⟨"s1", some "e1"⟩] [("My", "p1")]
      "My" ["p1"] rfl rfl rfl).2 "b1" rfl,
   ((c5_snapshot_guard envSnapFail "p1" [⟨"s2", none⟩] [⟨"s1", some "e1"⟩] [("My", "p1")]
      "My" ["p1"] rfl rfl rfl).1 "create failed" rfl).1⟩

theorem addStep_map_id {env : Env} {pid : String} {toAdd toKeep : List IdPair}
    {desired d1 : List Track} {t t1 : List RemoteCall}
    (h : addStep env pid toAdd toKeep desired t = (Except.ok d1, t1)) :
    d1.map Track.id = desired.map Track.id := by
  unfold addStep at h
  by_cases he : ((toAdd.map Prod.fst).isEmpty = true)
  · rw [if_pos he, M.pure_apply] at h
    have h1 : Except.ok desired = Except.ok d1 := congrArg Prod.fst h
    injection h1 with h2
    rw [← h2]
  · rw [if_neg he] at h
    cases ha : add_songs_to_playlist env pid (toAdd.map Prod.fst) t with
    | mk ra ta =>
      cases ra with
      | error e =>
        rw [bind_error_at ha] at h
        exact absurd (congrArg Prod.fst h) (by simp)
      | ok np =>
        rw [bind_ok_at ha, M.pure_apply] at h
        have h1 : Except.ok (foldBack desired toKeep (buildSidToEids np)) = Except.ok d1 :=
          congrArg Prod.fst h
        injection h1 with h2
        rw [← h2, foldBack_map_id]

theorem countP_eq_zero_of_all_not {l : List RemoteCall} {p : RemoteCall → Bool}
    (h : l.all (fun c => !(p c)) = true) : l.countP p = 0 := by
  rw [List.countP_eq_zero]
  intro a ha
  have ha2 := (List.all_eq_true.mp h) a ha
  simp only [Bool.not_eq_true'] at ha2
  simp [ha2]

theorem orderStep_intended_ok {env : Env} {pid : String} {d1 : List Track}
    {t : List RemoteCall}
    (hd1ne : d1 ≠ [])
    (horder : env.changeOrder pid ((get_id_pairs d1.reverse).map Prod.fst)
      ((get_id_pairs d1.reverse).map Prod.snd) = Except.ok ()) :
    orderStep intendedImports env pid d1 t =
      (Except.ok (), t ++ [RemoteCall.changePlaylistOrder pid
        ((get_id_pairs d1.reverse).map Prod.fst)
        ((get_id_pairs d1.reverse).map Prod.snd)]) := by
  unfold orderStep
  have hie : ¬ (d1.isEmpty = true) := by
    cases d1 with
    | nil => exact absurd rfl hd1ne
    | cons a b => simp
  rw [if_neg hie]
  have hl : lookupName intendedImports "tools" t = (Except.ok (), t) := by
    rw [lookupName_intended_tools]; rfl
  rw [bind_ok_at hl]
  cases hgp : get_id_pairs d1.reverse with
  | nil =>
    exfalso
    have hlen := congrArg List.length hgp
    simp [get_id_pairs] at hlen
    exact hd1ne hlen
  | cons p ps =>
    rw [hgp] at horder
    exact mkCall_ok _ horder t

/-- C6: for a non-empty desired list, a successful `change_playlist` run
issues exactly one remote order-setting call, and the song-id and
entry-id sequences it supplies are the desired final order reversed: the
song ids are exactly `(desired song ids).reverse`, and the entry ids are
the entry ids of the fold-backed desired list — whose song ids and order
equal the input's — reversed. -/
theorem c6_reorder_reversed (env : Env) (pid : String) (desired server d1 : List Track)
    (toDel toAdd toKeep : List IdPair) (name bid x : String)
    (t1 t2 t3 : List RemoteCall)
    (hne : desired ≠ [])
    (hpre : change_playlistPrelude intendedImports env pid desired true [] =
      (Except.ok (desired, server, name, bid), t1))
    (hdiff : find_playlist_changes server desired = (toDel, toAdd, toKeep))
    (hdel : deleteStep env pid toDel t1 = (Except.ok (), t2))
    (hadd : addStep env pid toAdd toKeep desired t2 = (Except.ok d1, t3))
    (horder : env.changeOrder pid ((get_id_pairs d1.reverse).map Prod.fst)
      ((get_id_pairs d1.reverse).map Prod.snd) = Except.ok ())
    (hclean : env.deletePlaylist bid = Except.ok x) :
    run (change_playlist intendedImports env pid desired true) =
      (Except.ok pid,
        (t3 ++ [RemoteCall.changePlaylistOrder pid ((desired.map Track.id).reverse)
          ((d1.map Track.playlistEntryId).reverse)]) ++ [RemoteCall.deletePlaylist bid])
    ∧ d1.map Track.id = desired.map Track.id
    ∧ ((t3 ++ [RemoteCall.changePlaylistOrder pid ((desired.map Track.id).reverse)
          ((d1.map Track.playlistEntryId).reverse)]) ++
        [RemoteCall.deletePlaylist bid]).countP (fun c => isOrderCall c) = 1 := by
  have hmap : d1.map Track.id = desired.map Track.id := addStep_map_id hadd
  have hd1ne : d1 ≠ [] := by
    intro hnil
    rw [hnil] at hmap
    cases desired with
    | nil => exact hne rfl
    | cons a b => simp at hmap
  have hsids : (get_id_pairs d1.reverse).map Prod.fst = (desired.map Track.id).reverse := by
    rw [get_id_pairs_map_fst, List.map_reverse, hmap]
  have heids : (get_id_pairs d1.reverse).map Prod.snd =
      (d1.map Track.playlistEntryId).reverse := by
    rw [get_id_pairs_map_snd, List.map_reverse]
  have hords := @orderStep_intended_ok env pid d1 t3 hd1ne horder
  rw [hsids, heids] at hords
  have hmutr : attemptMutation intendedImports env pid server desired t1 =
      (Except.ok (), t3 ++ [RemoteCall.changePlaylistOrder pid
        ((desired.map Track.id).reverse) ((d1.map Track.playlistEntryId).reverse)]) := by
    unfold attemptMutation
    have hl : lookupName intendedImports "tools" t1 = (Except.ok (), t1) := by
      rw [lookupName_intended_tools]; rfl
    rw [bind_ok_at hl, hdiff]
    show (deleteStep env pid toDel >>= fun _ =>
      addStep env pid toAdd toKeep desired >>= fun desired1 =>
      orderStep intendedImports env pid desired1) t1 = _
    rw [bind_ok_at hdel, bind_ok_at hadd]
    exact hords
  have hdelb : ∀ t, delete_playlist env bid t =
      (Except.ok x, t ++ [RemoteCall.deletePlaylist bid]) := fun t => by
    unfold delete_playlist; rw [mkCall_ok _ hclean]
  have hattr : change_playlistAttempt intendedImports env pid server desired true bid t1 =
      (Except.ok (),
        (t3 ++ [RemoteCall.changePlaylistOrder pid ((desired.map Track.id).reverse)
          ((d1.map Track.playlistEntryId).reverse)]) ++ [RemoteCall.deletePlaylist bid]) := by
    unfold change_playlistAttempt
    rw [bind_ok_at hmutr]
    show (delete_playlist env bid >>= fun _ => (pure () : M Unit)) _ = _
    rw [bind_ok_at (hdelb _), M.pure_apply]
  refine ⟨?_, hmap, ?_⟩
  · rw [change_playlist_run_catch hpre]
    have hbody : (change_playlistAttempt intendedImports env pid server desired true bid >>=
        fun _ => pure pid) t1 =
        (Except.ok pid,
          (t3 ++ [RemoteCall.changePlaylistOrder pid ((desired.map Track.id).reverse)
            ((d1.map Track.playlistEntryId).reverse)]) ++
            [RemoteCall.deletePlaylist bid]) := by
      rw [bind_ok_at hattr, M.pure_apply]
    rw [catch_ok hbody]
  · obtain ⟨s0, hs0, a0⟩ :=
      (@emitsOnly_prelude intendedImports env pid desired true
        (fun c => !(isOrderCall c))
        (fun q => rfl) (fun n => rfl) (fun b s => rfl)) []
    rw [hpre] at hs0
    have ht1 : t1 = [] ++ s0 := hs0
    obtain ⟨s1, hs1, a1⟩ :=
      (@emitsOnly_deleteStep env pid toDel
        (fun c => !(isOrderCall c)) rfl (fun a b c => rfl)) t1
    rw [hdel] at hs1
    have ht2 : t2 = t1 ++ s1 := hs1
    obtain ⟨s2, hs2, a2⟩ :=
      (@emitsOnly_addStep env pid toAdd toKeep desired
        (fun c => !(isOrderCall c)) (fun sids => rfl)) t2
    rw [hadd] at hs2
    have ht3 : t3 = t2 ++ s2 := hs2
    have c0 := countP_eq_zero_of_all_not a0
    have c1 := countP_eq_zero_of_all_not a1
    have c2 := countP_eq_zero_of_all_not a2
    have ho : isOrderCall (RemoteCall.changePlaylistOrder pid
        ((desired.map Track.id).reverse) ((d1.map Track.playlistEntryId).reverse)) = true := rfl
    have hdp : isOrderCall (RemoteCall.deletePlaylist bid) = false := rfl
    rw [ht3, ht2, ht1]
    simp [List.countP_append, List.countP_cons, c0, c1, c2, ho, hdp]

theorem c6_witness :
    run (change_playlist intendedImports envOk "p1"
        [⟨"s1", some "e1"⟩, ⟨"s2", none⟩] true) =
      (Except.ok "p1",
        ([RemoteCall.getPlaylistSongs "p1", RemoteCall.getPlaylistSongs "all",
          RemoteCall.getPlaylistSongs "p1", RemoteCall.addPlaylist "My_gmusicapi_backup",
          RemoteCall.addToPlaylist "b1" ["s1"], RemoteCall.addToPlaylist "p1" ["s2"]] ++
          [RemoteCall.changePlaylistOrder "p1" ["s2", "s1"]
            [some "ne_s2", some "e1"]]) ++ [RemoteCall.deletePlaylist "b1"])
    ∧ ([⟨"s1", some "e1"⟩, ⟨"s2", some "ne_s2"⟩] : List Track).map Track.id =
      ([⟨"s1", some "e1"⟩, ⟨"s2", none⟩] : List Track).map Track.id
    ∧ (([RemoteCall.getPlaylistSongs "p1", RemoteCall.getPlaylistSongs "all",
          RemoteCall.getPlaylistSongs "p1", RemoteCall.addPlaylist "My_gmusicapi_backup",
          RemoteCall.addToPlaylist "b1" ["s1"], RemoteCall.addToPlaylist "p1" ["s2"]] ++
          [RemoteCall.changePlaylistOrder "p1" ["s2", "s1"]
            [some "ne_s2", some "e1"]]) ++
        [RemoteCall.deletePlaylist "b1"]).countP (fun c => isOrderCall c) = 1 :=
  c6_reorder_reversed envOk "p1" [⟨"s1", some "e1"⟩, ⟨"s2", none⟩] [⟨"s1", some "e1"⟩]
    [⟨"s1", some "e1"⟩, ⟨"s2", some "ne_s2"⟩] [] [("s2", none)] [("s1", some "e1")]
    "My" "b1" "b1"
    [RemoteCall.getPlaylistSongs "p1", RemoteCall.getPlaylistSongs "all",
      RemoteCall.getPlaylistSongs "p1", RemoteCall.addPlaylist "My_gmusicapi_backup",
      RemoteCall.addToPlaylist "b1" ["s1"]]
    [RemoteCall.getPlaylistSongs "p1", RemoteCall.getPlaylistSongs "all",
      RemoteCall.getPlaylistSongs "p1", RemoteCall.addPlaylist "My_gmusicapi_backup",
      RemoteCall.addToPlaylist "b1" ["s1"]]
    [RemoteCall.getPlaylistSongs "p1", RemoteCall.getPlaylistSongs "all",
      RemoteCall.getPlaylistSongs "p1", RemoteCall.addPlaylist "My_gmusicapi_backup",
      RemoteCall.addToPlaylist "b1" ["s1"], RemoteCall.addToPlaylist "p1" ["s2"]]
    (by simp) rfl rfl rfl rfl rfl rfl
